import Mathlib

/-!
Verification of the NEON dissolved-gas pipeline (`def_format_sdg.py`,
`def_calc_sdg_conc.py`, `def_calc_sdg_sat.py`) against its specification.

Modelling conventions.

Tables: the two calculators accept a data frame and column-name override
arguments, so a frame is modelled as an association list from column names to
columns; a column is a list of cells.  A cell is `Option ℚ`: `none` models a
missing value (pandas `NaN`) and, in the result of an arithmetic operation,
any non-finite float (`NaN`/`inf`, which arises only from division by zero in
this code).  Reading a column that is absent raises `KeyError` in pandas; the
model returns `none` at the frame level, so each calculator returns
`Option Frame` and `none` models a raised exception.

Arithmetic: pandas arithmetic propagates `NaN` through every operation, which
the `Option ℚ` operations below mirror; division by zero yields a non-finite
float, modelled as `none`.  `np.exp` is a transcendental real function with no
rational counterpart, so every definition and theorem is parametric in a
function `npexp : ℚ → ℚ` standing for the exponential; all formula-level
statements hold for an arbitrary `npexp`, hence in particular for any rational
approximation of `exp`.

The formatter `def_format_sdg` works on three fixed input tables, modelled as
lists of records mirroring the columns the code touches.  Its `try/except
Exception: pass` blocks are modelled by lookup functions returning
`Option (Option ℚ)`: the outer `none` models a raised (and swallowed)
exception from `.item()` on zero or several matches, the inner value is the
looked-up cell.  The Python expression `series.isna() is True` compares a
pandas Series to the singleton `True` by object identity, which is `False`
for every Series; the `pyIsTrue` definition records exactly that semantics.
-/

namespace NeonDissolvedGas

/-- Cells of a data-frame column: `none` is pandas `NaN` (missing value, and
the result of any non-finite float computation in this code). -/
abbrev Cell := Option ℚ

/-- A column is the list of its cells, in row order. -/
abbrev Col := List Cell

/-- A data frame: an association list from column names to columns, in column
order.  Only numeric columns are represented, which covers every column the
two calculators read or write. -/
abbrev Frame := List (String × Col)

/-- NaN-propagating addition, as in pandas Series arithmetic. -/
def oAdd (x y : Cell) : Cell := x.bind fun a => y.map fun b => a + b

/-- NaN-propagating subtraction. -/
def oSub (x y : Cell) : Cell := x.bind fun a => y.map fun b => a - b

/-- NaN-propagating multiplication. -/
def oMul (x y : Cell) : Cell := x.bind fun a => y.map fun b => a * b

/-- NaN-propagating division.  Division by zero produces a non-finite float
(`inf` or `NaN`) in pandas; the model folds both into `none`. -/
def oDiv (x y : Cell) : Cell :=
  x.bind fun a => y.bind fun b => if b = 0 then none else some (a / b)

/-- NaN-propagating application of the (abstract) exponential `np.exp`. -/
def oExp (npexp : ℚ → ℚ) (x : Cell) : Cell := x.map npexp

/-- Universal gas constant, `cGas = 8.3144598` in both calculator files. -/
def cGas : ℚ := 8.3144598

/-- Celsius-to-Kelvin offset, `cKelvin = 273.15`. -/
def cKelvin : ℚ := 273.15

/-- ppmv-to-mol/mol conversion factor, `cPresConv = 0.000001`. -/
def cPresConv : ℚ := 0.000001

/-- Reference temperature for the Henry's-law constants, `cT0 = 298.15`. -/
def cT0 : ℚ := 298.15

/-- Percent conversion factor, `cConcPerc = 100` in `def_calc_sdg_sat.py`. -/
def cConcPerc : ℚ := 100

/-- Henry's-law constant for CO2 at 298.15 K, `ckHCO2 = 0.00033`. -/
def ckHCO2 : ℚ := 0.00033

/-- Henry's-law constant for CH4 at 298.15 K, `ckHCH4 = 0.000014`. -/
def ckHCH4 : ℚ := 0.000014

/-- Henry's-law constant for N2O at 298.15 K, `ckHN2O = 0.00024`. -/
def ckHN2O : ℚ := 0.00024

/-- Temperature-dependence coefficient for CO2, `cdHdTCO2 = 2400`. -/
def cdHdTCO2 : ℚ := 2400

/-- Temperature-dependence coefficient for CH4, `cdHdTCH4 = 1900`. -/
def cdHdTCH4 : ℚ := 1900

/-- Temperature-dependence coefficient for N2O, `cdHdTN2O = 2700`. -/
def cdHdTN2O : ℚ := 2700

/-- Read a column by name (`inputFile.loc[:, name]`, or `inputFile[name]` /
`inputFile.name` on the read side); `none` models the `KeyError` /
`AttributeError` raised when no such column exists. -/
def getCol : Frame → String → Option Col
  | [], _ => none
  | (n, v) :: t, c => if n = c then some v else getCol t c

/-- Whether a column of the given name exists. -/
def hasCol (f : Frame) (c : String) : Bool := f.any (fun p => p.1 = c)

/-- Replace the value of every column of the given name, keeping its place. -/
def replaceCol : Frame → String → Col → Frame
  | [], _, _ => []
  | (n, w) :: t, c, v =>
    if n = c then (c, v) :: replaceCol t c v else (n, w) :: replaceCol t c v

/-- Column assignment `inputFile[name] = series` (equally
`inputFile.loc[:, name] = series` for an existing column): overwrite the
column in place when it exists, otherwise append it as a new last column. -/
def setCol (f : Frame) (c : String) (v : Col) : Frame :=
  if hasCol f c then replaceCol f c v else f ++ [(c, v)]

/-- Number of rows of the frame, read off its first column (all columns of a
well-formed frame have the same length). -/
def nrows : Frame → ℕ
  | [] => 0
  | (_, v) :: _ => v.length

/-- The cell of column `c` at row `i` (out-of-range reads give `none`). -/
def cellAt (f : Frame) (c : String) (i : ℕ) : Cell :=
  ((getCol f c).getD []).getD i none

/-- The reference-air defaulting `series.replace(nan, d)`: every missing cell
becomes `d`, every present cell is kept. -/
def defaultCol (d : ℚ) (c : Col) : Col := c.map (fun x => some (x.getD d))

/-- One row of the dissolved-gas mass-balance expression of
`def_calc_sdg_conc.py` lines 113-125, with the exact association order of the
Python source:
`baro * cPresConv * (volGas * (eqGas - srcGas) / (cGas * (hsT + cKelvin) * volH2O)
 + ckH * np.exp(cdHdT * (1/(hsT + cKelvin) - 1/cT0)) * eqGas)`. -/
def dissolvedCell (npexp : ℚ → ℚ) (kH dHdT : ℚ) (b vg vw hsT eqg srcg : Cell) : Cell :=
  oMul (oMul b (some cPresConv))
    (oAdd
      (oDiv (oMul vg (oSub eqg srcg))
        (oMul (oMul (some cGas) (oAdd hsT (some cKelvin))) vw))
      (oMul
        (oMul (some kH)
          (oExp npexp (oMul (some dHdT)
            (oSub (oDiv (some 1) (oAdd hsT (some cKelvin))) (oDiv (some 1) (some cT0))))))
        eqg))

/-- The dissolved-gas series: `dissolvedCell` applied rowwise.  The row count
is the length of the barometric-pressure column (all columns of a well-formed
frame share it). -/
def dissolvedCol (npexp : ℚ → ℚ) (kH dHdT : ℚ) (bs vgs vws hss eqs srcs : Col) : Col :=
  (List.range bs.length).map fun i =>
    dissolvedCell npexp kH dHdT (bs.getD i none) (vgs.getD i none) (vws.getD i none)
      (hss.getD i none) (eqs.getD i none) (srcs.getD i none)

/-- One row of the 100%-saturation expression of `def_calc_sdg_sat.py` lines
103-107, with the exact association order of the Python source:
`(ckH * np.exp(cdHdT * (1/(waterTemp + cKelvin) - 1/cT0))) * srcGas * baro * cPresConv`. -/
def satConcCell (npexp : ℚ → ℚ) (kH dHdT : ℚ) (wt srcg b : Cell) : Cell :=
  oMul
    (oMul
      (oMul
        (oMul (some kH)
          (oExp npexp (oMul (some dHdT)
            (oSub (oDiv (some 1) (oAdd wt (some cKelvin))) (oDiv (some 1) (some cT0))))))
        srcg)
      b)
    (some cPresConv)

/-- The saturation-concentration series: `satConcCell` applied rowwise; the
row count is the length of the water-temperature column. -/
def satConcCol (npexp : ℚ → ℚ) (kH dHdT : ℚ) (wts srcs bs : Col) : Col :=
  (List.range wts.length).map fun i =>
    satConcCell npexp kH dHdT (wts.getD i none) (srcs.getD i none) (bs.getD i none)

/-- One row of the percent-saturation expression of `def_calc_sdg_sat.py`
lines 111-113: `conc / satConc * cConcPerc`. -/
def percSatCell (conc sat : Cell) : Cell := oMul (oDiv conc sat) (some cConcPerc)

/-- The percent-saturation series: `percSatCell` applied rowwise; the row
count is the length of the dissolved-concentration column. -/
def percSatCol (concs sats : Col) : Col :=
  (List.range concs.length).map fun i => percSatCell (concs.getD i none) (sats.getD i none)

/-- The reference-air defaulting statement
`inputFile.loc[:, src] = inputFile.loc[:, src].replace(nan, d)`
(`def_calc_sdg_conc.py` lines 105-109 and `def_calc_sdg_sat.py` lines 92-96):
read the column (raising — `none` — when absent), replace missing cells by
`d`, write the column back. -/
def replaceNaNStep (f : Frame) (src : String) (d : ℚ) : Option Frame :=
  (getCol f src).map fun s => setCol f src (defaultCol d s)

/-- One dissolved-gas block of `def_calc_sdg_conc.py` (lines 112-115 for CO2
and their CH4/N2O copies): assign an all-`NaN` column named `colName`, read
the six operand columns, and overwrite `colName` with the computed series. -/
def dissolvedStep (npexp : ℚ → ℚ) (kH dHdT : ℚ) (f : Frame)
    (colName baro volGas volH2O headspaceTemp eqg srcg : String) : Option Frame :=
  let fa := setCol f colName (List.replicate (nrows f) none)
  (getCol fa baro).bind fun b1 =>
  (getCol fa volGas).bind fun g1 =>
  (getCol fa volH2O).bind fun w1 =>
  (getCol fa headspaceTemp).bind fun h1 =>
  (getCol fa eqg).bind fun e1 =>
  (getCol fa srcg).bind fun a1 =>
  some (setCol fa colName (dissolvedCol npexp kH dHdT b1 g1 w1 h1 e1 a1))

/-- The `astype(float)` statements of `def_calc_sdg_conc.py` lines 127-128:
`inputFile[c] = inputFile.c.astype(float)`.  The attribute read raises
`AttributeError` — `none` — when no column is literally named `c`;
`astype(float)` is the identity on these numeric columns. -/
def astypeStep (f : Frame) (c : String) : Option Frame :=
  (getCol f c).map fun v => setCol f c v

/-- One saturation-concentration block of `def_calc_sdg_sat.py` (lines
102-103 for CO2 and their CH4/N2O copies): assign an all-`NaN` column named
`colName`, read the three operand columns, and overwrite `colName` with the
computed series. -/
def satConcStep (npexp : ℚ → ℚ) (kH dHdT : ℚ) (f : Frame)
    (colName waterTemp srcg baro : String) : Option Frame :=
  let fa := setCol f colName (List.replicate (nrows f) none)
  (getCol fa waterTemp).bind fun t1 =>
  (getCol fa srcg).bind fun a1 =>
  (getCol fa baro).bind fun b1 =>
  some (setCol fa colName (satConcCol npexp kH dHdT t1 a1 b1))

/-- One percent-saturation statement of `def_calc_sdg_sat.py` (lines
111-113): `inputFile[outName] = inputFile.loc[:, concName] / inputFile[satName] * cConcPerc`. -/
def percSatStep (f : Frame) (outName concName satName : String) : Option Frame :=
  (getCol f concName).bind fun c1 =>
  (getCol f satName).bind fun v1 =>
  some (setCol f outName (percSatCol c1 v1))

/-- Shallow embedding of `def_calc_sdg_conc` (`def_calc_sdg_conc.py`).  The
optional string arguments carry the same defaults as the Python signature
(`waterTemp` is accepted and never used, as in the source).  Statement order
follows the source: reference-air defaulting for the three gases (lines
105-109, an in-place mutation modelled functionally), the three dissolved-gas
blocks (lines 112-125), and finally the `astype(float)` statements of lines
127-128, which read through the hard-coded attribute names
`inputFile.gasVolume` / `inputFile.waterVolume` — not through the `volGas` /
`volH2O` override arguments. -/
def def_calc_sdg_conc (npexp : ℚ → ℚ) (inputFile : Frame)
    (volGas : String := "gasVolume") (volH2O : String := "waterVolume")
    (baro : String := "barometricPressure") (waterTemp : String := "waterTemp")
    (headspaceTemp : String := "headspaceTemp")
    (eqCO2 : String := "concentrationCO2Gas") (sourceCO2 : String := "concentrationCO2Air")
    (eqCH4 : String := "concentrationCH4Gas") (sourceCH4 : String := "concentrationCH4Air")
    (eqN2O : String := "concentrationN2OGas") (sourceN2O : String := "concentrationN2OAir") :
    Option Frame :=
  (replaceNaNStep inputFile sourceCO2 405).bind fun f1 =>
  (replaceNaNStep f1 sourceCH4 1.85).bind fun f2 =>
  (replaceNaNStep f2 sourceN2O 0.330).bind fun f3 =>
  (dissolvedStep npexp ckHCO2 cdHdTCO2 f3 "dissolvedCO2" baro volGas volH2O headspaceTemp eqCO2 sourceCO2).bind fun f5 =>
  (dissolvedStep npexp ckHCH4 cdHdTCH4 f5 "dissolvedCH4" baro volGas volH2O headspaceTemp eqCH4 sourceCH4).bind fun f7 =>
  (dissolvedStep npexp ckHN2O cdHdTN2O f7 "dissolvedN2O" baro volGas volH2O headspaceTemp eqN2O sourceN2O).bind fun f9 =>
  (astypeStep f9 "gasVolume").bind fun f10 =>
  astypeStep f10 "waterVolume"

/-- Shallow embedding of `def_calc_sdg_sat` (`def_calc_sdg_sat.py`).  The
optional string arguments carry the same defaults as the Python signature
(`headspaceTemp` is accepted and never used, as in the source).  Statement
order follows the source: reference-air defaulting (lines 92-96), the three
saturation-concentration blocks (lines 102-107), then the three
percent-saturation statements (lines 111-113), which read the dissolved
column through the `concGas` override name and the saturation column through
its hard-coded name `satConc<Gas>`. -/
def def_calc_sdg_sat (npexp : ℚ → ℚ) (inputFile : Frame)
    (baro : String := "barometricPressure") (waterTemp : String := "waterTemp")
    (headspaceTemp : String := "headspaceTemp")
    (concCO2 : String := "dissolvedCO2") (sourceCO2 : String := "concentrationCO2Air")
    (concCH4 : String := "dissolvedCH4") (sourceCH4 : String := "concentrationCH4Air")
    (concN2O : String := "dissolvedN2O") (sourceN2O : String := "concentrationN2OAir") :
    Option Frame :=
  (replaceNaNStep inputFile sourceCO2 405).bind fun f1 =>
  (replaceNaNStep f1 sourceCH4 1.85).bind fun f2 =>
  (replaceNaNStep f2 sourceN2O 0.330).bind fun f3 =>
  (satConcStep npexp ckHCO2 cdHdTCO2 f3 "satConcCO2" waterTemp sourceCO2 baro).bind fun f5 =>
  (satConcStep npexp ckHCH4 cdHdTCH4 f5 "satConcCH4" waterTemp sourceCH4 baro).bind fun f7 =>
  (satConcStep npexp ckHN2O cdHdTN2O f7 "satConcN2O" waterTemp sourceN2O baro).bind fun f9 =>
  (percSatStep f9 "CO2PercSat" concCO2 "satConcCO2").bind fun f10 =>
  (percSatStep f10 "CH4PercSat" concCH4 "satConcCH4").bind fun f11 =>
  percSatStep f11 "N2OPercSat" concN2O "satConcN2O"


/-- One row of the raw `fieldDataProc` table (`sdg_fieldDataProc.csv`),
holding exactly the columns `def_format_sdg.py` touches.  String-valued
columns are `Option String` (`none` is a missing value), numeric columns are
`Cell`.  The two provenance flags `volH2OSource` / `volGasSource` are the
columns the function itself assigns (lines 62-71); they are absent — `none` —
in the raw table. -/
structure FieldRow where
  waterSampleID : Option String := none
  referenceAirSampleID : Option String := none
  equilibratedAirSampleID : Option String := none
  collectDate : Option String := none
  processedDate : Option String := none
  namedLocation : Option String := none
  storageWaterTemp : Cell := none
  ptBarometricPressure : Cell := none
  waterVolumeSyringe : Cell := none
  gasVolumeSyringe : Cell := none
  volH2OSource : Cell := none
  volGasSource : Cell := none

/-- One row of the raw `externalLabData` table (`sdg_externalLabData.csv`),
holding the columns `def_format_sdg.py` reads. -/
structure LabRow where
  sampleID : Option String := none
  concentrationCO2 : Cell := none
  concentrationCH4 : Cell := none
  concentrationN2O : Cell := none

/-- One row of the raw `fieldSuperParent` table (`sdg_fieldSuperParent.csv`),
holding the columns `def_format_sdg.py` reads. -/
structure ParentRow where
  parentSampleID : Option String := none
  waterTemp : Cell := none

/-- One row of the formatter's output table, with the column set of
`outputDFNames` (`def_format_sdg.py` lines 79-102). -/
structure OutRow where
  waterSampleID : Option String := none
  referenceAirSampleID : Option String := none
  equilibratedAirSampleID : Option String := none
  collectDate : Option String := none
  processedDate : Option String := none
  stationID : Option String := none
  barometricPressure : Cell := none
  headspaceTemp : Cell := none
  waterTemp : Cell := none
  concentrationCO2Air : Cell := none
  concentrationCO2Gas : Cell := none
  concentrationCH4Air : Cell := none
  concentrationCH4Gas : Cell := none
  concentrationN2OAir : Cell := none
  concentrationN2OGas : Cell := none
  waterVolume : Cell := none
  gasVolume : Cell := none
  volH2OSource : Cell := none
  volGasSource : Cell := none

/-- Values the formatter's `if` conditions compare with the `is` operator:
the Python Boolean singletons, or a pandas Series (of the rowwise `isna()`
results).  `is` compares object identity, so `x is True` holds exactly when
`x` is the Boolean `True` itself — a Series is never identical to `True`.
This models the conditions at `def_format_sdg.py` lines 63-77 faithfully:
they are always `False`. -/
inductive PyBoolish where
  | pybool (b : Bool)
  | pyseries (s : List Bool)

/-- Semantics of the Python expression `x is True` for a `PyBoolish` `x`. -/
def pyIsTrue : PyBoolish → Bool
  | .pybool b => b
  | .pyseries _ => false

/-- Lines 62-77 of `def_format_sdg.py`: flag and set default field values.
Each condition is `fieldDataProc[col].isna() is True` — identity comparison
of a Series with `True`, hence always `False` — and each assignment under an
`if`/`else` writes a scalar to a whole column, modelled by a rowwise map. -/
def def_format_flags (t : List FieldRow) : List FieldRow :=
  let t1 := if pyIsTrue (.pyseries (t.map (fun r => r.waterVolumeSyringe.isNone)))
    then t.map (fun r => { r with volH2OSource := some 1 })
    else t.map (fun r => { r with volH2OSource := some 0 })
  let t2 := if pyIsTrue (.pyseries (t1.map (fun r => r.gasVolumeSyringe.isNone)))
    then t1.map (fun r => { r with volGasSource := some 1 })
    else t1.map (fun r => { r with volGasSource := some 0 })
  let t3 := if pyIsTrue (.pyseries (t2.map (fun r => r.waterVolumeSyringe.isNone)))
    then t2.map (fun r => { r with waterVolumeSyringe := some 40 })
    else t2
  let t4 := if pyIsTrue (.pyseries (t3.map (fun r => r.gasVolumeSyringe.isNone)))
    then t3.map (fun r => { r with gasVolumeSyringe := some 20 })
    else t3
  t4

/-- A `fieldDataProc` row as it leaves the flag step: both provenance flags
set to 0 (the only outcome the always-false conditions allow). -/
def flaggedRow (r : FieldRow) : FieldRow :=
  { r with volH2OSource := some 0, volGasSource := some 0 }

/-- Lines 104-116 of `def_format_sdg.py`: build one output row per
`fieldDataProc` row.  The loop at lines 108-110 copies every output column
whose name also occurs in `fieldDataProc` (the sample-ID and date columns and
the two provenance flags); the remaining columns start out missing; lines
112-116 then assign the explicitly remapped columns
(`headspaceTemp` ← `storageWaterTemp`, `barometricPressure` ←
`ptBarometricPressure`, `waterVolume` ← `waterVolumeSyringe`, `gasVolume` ←
`gasVolumeSyringe`, `stationID` ← `namedLocation`). -/
def initOut (r : FieldRow) : OutRow :=
  { waterSampleID := r.waterSampleID
    referenceAirSampleID := r.referenceAirSampleID
    equilibratedAirSampleID := r.equilibratedAirSampleID
    collectDate := r.collectDate
    processedDate := r.processedDate
    stationID := r.namedLocation
    barometricPressure := r.ptBarometricPressure
    headspaceTemp := r.storageWaterTemp
    waterTemp := none
    waterVolume := r.waterVolumeSyringe
    gasVolume := r.gasVolumeSyringe
    volH2OSource := r.volH2OSource
    volGasSource := r.volGasSource }

/-- The per-row lab lookup
`externalLabData.loc[externalLabData.loc[:, 'sampleID'] == key, field].item()`:
filter the lab rows whose `sampleID` equals the key (a missing key matches
nothing, since `NaN == x` is `False`), then `.item()` returns the single
matching cell and raises — outer `none` — on zero or several matches. -/
def labItem (lab : List LabRow) (key : Option String) (field : LabRow → Cell) :
    Option Cell :=
  match key with
  | none => none
  | some s =>
    match lab.filter (fun lr => lr.sampleID == some s) with
    | [lr] => some (field lr)
    | _ => none

/-- The analogous per-row lookup into `fieldSuperParent` by `parentSampleID`,
returning the matched row's `waterTemp`. -/
def parentItem (ps : List ParentRow) (key : Option String) : Option Cell :=
  match key with
  | none => none
  | some s =>
    match ps.filter (fun pr => pr.parentSampleID == some s) with
    | [pr] => some pr.waterTemp
    | _ => none

/-- The CO2 `try` block of `def_format_sdg.py` lines 121-126: assign
`concentrationCO2Air` from the reference-air lookup, then
`concentrationCO2Gas` from the equilibrated-air lookup.  An exception in the
first statement skips both assignments; an exception in the second leaves the
first assignment in place (`except Exception: pass`).  The second lookup in
the source reads the ID from the row after the first assignment, which never
modifies `equilibratedAirSampleID`, so it is written against `r` here. -/
def labStepCO2 (lab : List LabRow) (r : OutRow) : OutRow :=
  match labItem lab r.referenceAirSampleID LabRow.concentrationCO2 with
  | none => r
  | some a =>
    match labItem lab r.equilibratedAirSampleID LabRow.concentrationCO2 with
    | none => { r with concentrationCO2Air := a }
    | some g => { r with concentrationCO2Air := a, concentrationCO2Gas := g }

/-- The CH4 `try` block of `def_format_sdg.py` lines 127-132. -/
def labStepCH4 (lab : List LabRow) (r : OutRow) : OutRow :=
  match labItem lab r.referenceAirSampleID LabRow.concentrationCH4 with
  | none => r
  | some a =>
    match labItem lab r.equilibratedAirSampleID LabRow.concentrationCH4 with
    | none => { r with concentrationCH4Air := a }
    | some g => { r with concentrationCH4Air := a, concentrationCH4Gas := g }

/-- The N2O `try` block of `def_format_sdg.py` lines 134-138. -/
def labStepN2O (lab : List LabRow) (r : OutRow) : OutRow :=
  match labItem lab r.referenceAirSampleID LabRow.concentrationN2O with
  | none => r
  | some a =>
    match labItem lab r.equilibratedAirSampleID LabRow.concentrationN2O with
    | none => { r with concentrationN2OAir := a }
    | some g => { r with concentrationN2OAir := a, concentrationN2OGas := g }

/-- Lines 119-138 of `def_format_sdg.py`: populate one output row with
external lab data, one independent `try` block per gas species. -/
def labStep (lab : List LabRow) (r : OutRow) : OutRow :=
  labStepN2O lab (labStepCH4 lab (labStepCO2 lab r))

/-- Lines 142-145 of `def_format_sdg.py`: backfill `waterTemp` from
`fieldSuperParent`, the exception from a failed lookup swallowed. -/
def parentStepA (ps : List ParentRow) (r : OutRow) : OutRow :=
  match parentItem ps r.waterSampleID with
  | none => r
  | some w => { r with waterTemp := w }

/-- Lines 146-150 of `def_format_sdg.py`: when `headspaceTemp` is missing
(`pd.isna(scalar) is True` behaves normally for scalars), backfill it from
`fieldSuperParent`, the exception from a failed lookup swallowed. -/
def parentStepB (ps : List ParentRow) (r : OutRow) : OutRow :=
  if r.headspaceTemp.isNone then
    match parentItem ps r.waterSampleID with
    | none => r
    | some w => { r with headspaceTemp := w }
  else r

/-- Lines 140-150 of `def_format_sdg.py`: the per-row super-parent backfills
(`parentStepA` never modifies `waterSampleID`, so `parentStepB` reads the
same key the source reads). -/
def parentStep (ps : List ParentRow) (r : OutRow) : OutRow :=
  parentStepB ps (parentStepA ps r)

/-- Shallow embedding of `def_format_sdg` (`def_format_sdg.py`), starting
from the three already-loaded tables (file download, unzipping and stacking
are out of scope; the ambient-scope check at line 51 always loads).  The
final `astype(float)` statements (lines 152-159) are the identity on these
numeric columns. -/
def def_format_sdg (fieldDataProc : List FieldRow) (externalLabData : List LabRow)
    (fieldSuperParent : List ParentRow) : List OutRow :=
  (((def_format_flags fieldDataProc).map initOut).map
    (labStep externalLabData)).map (parentStep fieldSuperParent)

/-- Modelled from the spec (§4.2 formula text), for refinement comparison
with the code-derived `dissolvedCell`:
`dissolved = baro * 1e-6 * ( volGas * (eqGas - sourceGas) / (R * (headspaceTemp_C + 273.15) * volH2O)
 + kH * exp(dHdT * (1/(headspaceTemp_C + 273.15) - 1/298.15)) * eqGas )`
with `R = 8.3144598`. -/
def dissolvedSpec (npexp : ℚ → ℚ) (kH dHdT baro volGas volH2O headspaceTempC eqGas sourceGas : ℚ) : ℚ :=
  baro * 0.000001 *
    (volGas * (eqGas - sourceGas) / (8.3144598 * (headspaceTempC + 273.15) * volH2O) +
      kH * npexp (dHdT * (1 / (headspaceTempC + 273.15) - 1 / 298.15)) * eqGas)

/-- Modelled from the spec (§4.3 formula text), for refinement comparison
with the code-derived `satConcCell`:
`satConc = kH * exp(dHdT * (1/(waterTemp_C + 273.15) - 1/298.15)) * sourceGas * baro * 1e-6`. -/
def satConcSpec (npexp : ℚ → ℚ) (kH dHdT waterTempC sourceGas baro : ℚ) : ℚ :=
  kH * npexp (dHdT * (1 / (waterTempC + 273.15) - 1 / 298.15)) * sourceGas * baro * 0.000001



/-! Concrete test data used by the witness and evaluation theorems.  Row 0 is
fully populated, row 1 has missing temperatures, row 2 has no lab data at all
(missing reference-air and dissolved values), row 3 carries zero reference-air
concentrations (equilibration with a pure gas, as the source's doc comment
describes). -/

def wBaro : Col := [some 98, some 98, some 98, some 98]

def wVolGas : Col := [some 20, some 20, some 20, some 20]

def wVolH2O : Col := [some 40, some 40, some 40, some 40]

def wWaterTemp : Col := [some 15, none, some 15, some 15]

def wHeadspaceTemp : Col := [some 22, none, some 22, some 22]

def wEqCO2 : Col := [some 1200, some 1200, some 1200, some 1200]

def wSrcCO2 : Col := [none, some 400, none, some 0]

def wEqCH4 : Col := [some 2, some 2, some 2, some 2]

def wSrcCH4 : Col := [some 1.9, some 1.9, none, some 0]

def wEqN2O : Col := [some 1, some 1, some 1, some 1]

def wSrcN2O : Col := [none, some 0.3, none, some 0]

def wDisCO2 : Col := [some 1, some 1, none, some 1]

def wDisCH4 : Col := [some 1, some 1, none, some 1]

def wDisN2O : Col := [some 1, some 1, none, some 1]

/-- A four-row frame with every canonical column of the pipeline. -/
def wFrame : Frame :=
  [("barometricPressure", wBaro), ("gasVolume", wVolGas), ("waterVolume", wVolH2O),
   ("waterTemp", wWaterTemp), ("headspaceTemp", wHeadspaceTemp),
   ("concentrationCO2Gas", wEqCO2), ("concentrationCO2Air", wSrcCO2),
   ("concentrationCH4Gas", wEqCH4), ("concentrationCH4Air", wSrcCH4),
   ("concentrationN2OGas", wEqN2O), ("concentrationN2OAir", wSrcN2O),
   ("dissolvedCO2", wDisCO2), ("dissolvedCH4", wDisCH4), ("dissolvedN2O", wDisN2O)]

/-- A one-row frame holding the eleven physical-input columns under
non-canonical names (no column is literally named `gasVolume` or
`waterVolume`). -/
def wRenamedFrame : Frame :=
  [("gv", [some 20]), ("wv", [some 40]), ("bp", [some 98]), ("wtemp", [some 15]),
   ("hst", [some 22]), ("eqC", [some 1200]), ("srcC", [some 405]),
   ("eqM", [some 2]), ("srcM", [some 2]), ("eqN", [some 1]), ("srcN", [some 1])]

/-- A complete `fieldDataProc` row whose air-sample IDs have no match in an
empty lab table. -/
def wFieldRow : FieldRow :=
  { waterSampleID := some "WS1", referenceAirSampleID := some "RA1",
    equilibratedAirSampleID := some "EA1", collectDate := some "2020-01-01",
    processedDate := some "2020-01-02", namedLocation := some "SITE1",
    storageWaterTemp := some 20, ptBarometricPressure := some 98,
    waterVolumeSyringe := some 40, gasVolumeSyringe := some 20 }

/-- A `fieldDataProc` row with both syringe volumes missing. -/
def wFieldRowMissing : FieldRow :=
  { waterSampleID := some "WS2", referenceAirSampleID := none,
    equilibratedAirSampleID := none, collectDate := none,
    processedDate := none, namedLocation := none,
    storageWaterTemp := none, ptBarometricPressure := none,
    waterVolumeSyringe := none, gasVolumeSyringe := none }

/-! Frame lemmas: how `getCol` interacts with `setCol`. -/

theorem getCol_replaceCol_self (f : Frame) (c : String) (v : Col) :
    getCol (replaceCol f c v) c = if hasCol f c then some v else none := by
  induction f with
  | nil => simp [replaceCol, getCol, hasCol]
  | cons p t ih =>
    obtain ⟨n, w⟩ := p
    by_cases h : n = c
    · subst h; simp [replaceCol, getCol, hasCol, List.any_cons]
    · have hh : hasCol ((n, w) :: t) c = hasCol t c := by
        rw [hasCol, hasCol, List.any_cons, decide_eq_false h, Bool.false_or]
      rw [replaceCol, if_neg h, getCol, if_neg h, ih, hh]

theorem getCol_replaceCol_ne (f : Frame) (c m : String) (v : Col) (h : m ≠ c) :
    getCol (replaceCol f c v) m = getCol f m := by
  induction f with
  | nil => simp [replaceCol]
  | cons p t ih =>
    obtain ⟨n, w⟩ := p
    by_cases hn : n = c
    · subst hn
      simp [replaceCol, getCol, Ne.symm h, ih]
    · simp [replaceCol, getCol, hn, ih]

theorem getCol_append_single (f : Frame) (c m : String) (v : Col) (h : m ≠ c) :
    getCol (f ++ [(c, v)]) m = getCol f m := by
  induction f with
  | nil => simp [getCol, Ne.symm h]
  | cons p t ih =>
    obtain ⟨n, w⟩ := p
    by_cases hn : n = m <;> simp [getCol, hn, ih]

theorem getCol_append_single_self (f : Frame) (c : String) (v : Col)
    (h : hasCol f c = false) : getCol (f ++ [(c, v)]) c = some v := by
  induction f with
  | nil => simp [getCol]
  | cons p t ih =>
    obtain ⟨n, w⟩ := p
    rw [hasCol, List.any_cons, Bool.or_eq_false_iff] at h
    obtain ⟨h1, h2⟩ := h
    rw [decide_eq_false_iff_not] at h1
    simp only [List.cons_append, getCol, h1, if_false]
    exact ih h2

theorem getCol_setCol_self (f : Frame) (c : String) (v : Col) :
    getCol (setCol f c v) c = some v := by
  unfold setCol
  by_cases h : hasCol f c
  · simp [h, getCol_replaceCol_self]
  · simp only [h, Bool.false_eq_true, if_false]
    exact getCol_append_single_self f c v (by simpa using h)

theorem getCol_setCol_ne (f : Frame) (c m : String) (v : Col) (h : m ≠ c) :
    getCol (setCol f c v) m = getCol f m := by
  unfold setCol
  by_cases hc : hasCol f c
  · simp [hc, getCol_replaceCol_ne _ _ _ _ h]
  · simp [hc, getCol_append_single _ _ _ _ h]

theorem getCol_setCol (f : Frame) (c m : String) (v : Col) :
    getCol (setCol f c v) m = if m = c then some v else getCol f m := by
  by_cases h : m = c
  · subst h; simp [getCol_setCol_self]
  · simp [h, getCol_setCol_ne _ _ _ _ h]

theorem hasCol_eq_isSome_getCol (f : Frame) (c : String) :
    hasCol f c = (getCol f c).isSome := by
  induction f with
  | nil => simp [hasCol, getCol]
  | cons p t ih =>
    obtain ⟨n, w⟩ := p
    by_cases h : n = c
    · subst h
      rw [hasCol, List.any_cons, getCol, if_pos rfl]
      simp
    · rw [hasCol, List.any_cons, decide_eq_false h, Bool.false_or, getCol, if_neg h]
      exact ih

theorem hasCol_replaceCol (f : Frame) (c m : String) (v : Col) :
    hasCol (replaceCol f c v) m = hasCol f m := by
  by_cases h : m = c
  · subst h
    rw [hasCol_eq_isSome_getCol, getCol_replaceCol_self]
    by_cases hc : hasCol f m
    · rw [if_pos hc, hc]; rfl
    · rw [if_neg hc, Bool.not_eq_true] at *
      rw [hc]; rfl
  · rw [hasCol_eq_isSome_getCol, hasCol_eq_isSome_getCol,
      getCol_replaceCol_ne _ _ _ _ h]

theorem replaceCol_replaceCol (f : Frame) (c : String) (u v : Col) :
    replaceCol (replaceCol f c u) c v = replaceCol f c v := by
  induction f with
  | nil => simp [replaceCol]
  | cons p t ih =>
    obtain ⟨n, w⟩ := p
    by_cases h : n = c
    · subst h; simp [replaceCol, ih]
    · simp [replaceCol, h, ih]

theorem replaceCol_of_hasCol_eq_false (f : Frame) (c : String) (v : Col)
    (h : hasCol f c = false) : replaceCol f c v = f := by
  induction f with
  | nil => simp [replaceCol]
  | cons p t ih =>
    obtain ⟨n, w⟩ := p
    rw [hasCol, List.any_cons, Bool.or_eq_false_iff] at h
    obtain ⟨h1, h2⟩ := h
    rw [decide_eq_false_iff_not] at h1
    rw [replaceCol, if_neg h1, ih h2]

theorem hasCol_append_single_self (f : Frame) (c : String) (v : Col) :
    hasCol (f ++ [(c, v)]) c = true := by
  simp [hasCol, List.any_append, List.any_cons]

theorem replaceCol_append_single_aux (f : Frame) (c : String) (u v : Col)
    (h : hasCol f c = false) : replaceCol (f ++ [(c, u)]) c v = f ++ [(c, v)] := by
  induction f with
  | nil => simp [replaceCol]
  | cons p t ih =>
    obtain ⟨n, w⟩ := p
    rw [hasCol, List.any_cons, Bool.or_eq_false_iff] at h
    obtain ⟨h1, h2⟩ := h
    rw [decide_eq_false_iff_not] at h1
    simp only [List.cons_append, replaceCol, if_neg h1]
    exact congrArg (List.cons (n, w)) (ih h2)

theorem setCol_setCol (f : Frame) (c : String) (u v : Col) :
    setCol (setCol f c u) c v = setCol f c v := by
  unfold setCol
  by_cases h : hasCol f c
  · simp [h, hasCol_replaceCol, replaceCol_replaceCol]
  · simp only [h, Bool.false_eq_true, if_false, hasCol_append_single_self, if_true]
    rw [replaceCol_append_single_aux f c u v (by simpa using h)]



/-! Column lemmas: lengths and rowwise values of the computed series. -/

theorem defaultCol_length (d : ℚ) (c : Col) : (defaultCol d c).length = c.length := by
  simp [defaultCol]

theorem defaultCol_getD (d : ℚ) (c : Col) (i : ℕ) (hi : i < c.length) :
    (defaultCol d c).getD i none = some ((c.getD i none).getD d) := by
  simp [defaultCol, List.getD_eq_getElem?_getD, List.getElem?_map,
    List.getElem?_eq_getElem hi]

theorem dissolvedCol_length (npexp : ℚ → ℚ) (kH dHdT : ℚ) (bs vgs vws hss eqs srcs : Col) :
    (dissolvedCol npexp kH dHdT bs vgs vws hss eqs srcs).length = bs.length := by
  simp [dissolvedCol]

theorem dissolvedCol_getD (npexp : ℚ → ℚ) (kH dHdT : ℚ) (bs vgs vws hss eqs srcs : Col)
    (i : ℕ) (hi : i < bs.length) :
    (dissolvedCol npexp kH dHdT bs vgs vws hss eqs srcs).getD i none =
      dissolvedCell npexp kH dHdT (bs.getD i none) (vgs.getD i none) (vws.getD i none)
        (hss.getD i none) (eqs.getD i none) (srcs.getD i none) := by
  simp [dissolvedCol, List.getD_eq_getElem?_getD, List.getElem?_map, List.getElem?_range, hi]

theorem satConcCol_length (npexp : ℚ → ℚ) (kH dHdT : ℚ) (wts srcs bs : Col) :
    (satConcCol npexp kH dHdT wts srcs bs).length = wts.length := by
  simp [satConcCol]

theorem satConcCol_getD (npexp : ℚ → ℚ) (kH dHdT : ℚ) (wts srcs bs : Col)
    (i : ℕ) (hi : i < wts.length) :
    (satConcCol npexp kH dHdT wts srcs bs).getD i none =
      satConcCell npexp kH dHdT (wts.getD i none) (srcs.getD i none) (bs.getD i none) := by
  simp [satConcCol, List.getD_eq_getElem?_getD, List.getElem?_map, List.getElem?_range, hi]

theorem percSatCol_length (concs sats : Col) :
    (percSatCol concs sats).length = concs.length := by
  simp [percSatCol]

theorem percSatCol_getD (concs sats : Col) (i : ℕ) (hi : i < concs.length) :
    (percSatCol concs sats).getD i none =
      percSatCell (concs.getD i none) (sats.getD i none) := by
  simp [percSatCol, List.getD_eq_getElem?_getD, List.getElem?_map, List.getElem?_range, hi]

/-! Cell lemmas: evaluation on present values and NaN propagation. -/

theorem oAdd_none_right (x : Cell) : oAdd x none = none := by cases x <;> rfl

theorem oSub_none_right (x : Cell) : oSub x none = none := by cases x <;> rfl

theorem oMul_none_right (x : Cell) : oMul x none = none := by cases x <;> rfl

theorem oDiv_none_right (x : Cell) : oDiv x none = none := by cases x <;> rfl

theorem dissolvedCell_eval (npexp : ℚ → ℚ) (kH dHdT bv gv wv hv ev sv : ℚ)
    (hT : hv + cKelvin ≠ 0) (hW : wv ≠ 0) :
    dissolvedCell npexp kH dHdT (some bv) (some gv) (some wv) (some hv) (some ev) (some sv) =
      some (bv * cPresConv *
        (gv * (ev - sv) / (cGas * (hv + cKelvin) * wv) +
          kH * npexp (dHdT * (1 / (hv + cKelvin) - 1 / cT0)) * ev)) := by
  have h1 : cGas * (hv + cKelvin) * wv ≠ 0 :=
    mul_ne_zero (mul_ne_zero (by norm_num [cGas]) hT) hW
  have h2 : cT0 ≠ 0 := by norm_num [cT0]
  simp [dissolvedCell, oMul, oAdd, oSub, oDiv, oExp, h1, h2, hT]

theorem satConcCell_eval (npexp : ℚ → ℚ) (kH dHdT wv sv bv : ℚ)
    (hT : wv + cKelvin ≠ 0) :
    satConcCell npexp kH dHdT (some wv) (some sv) (some bv) =
      some (kH * npexp (dHdT * (1 / (wv + cKelvin) - 1 / cT0)) * sv * bv * cPresConv) := by
  have h2 : cT0 ≠ 0 := by norm_num [cT0]
  simp [satConcCell, oMul, oAdd, oSub, oDiv, oExp, h2, hT]

theorem dissolvedCell_none (npexp : ℚ → ℚ) (kH dHdT : ℚ) (b vg vw hsT eqg srcg : Cell)
    (h : b = none ∨ vg = none ∨ vw = none ∨ hsT = none ∨ eqg = none) :
    dissolvedCell npexp kH dHdT b vg vw hsT eqg srcg = none := by
  rcases h with rfl | rfl | rfl | rfl | rfl <;>
    simp [dissolvedCell, oMul, oAdd, oSub, oDiv, oExp,
      oAdd_none_right, oSub_none_right, oMul_none_right, oDiv_none_right]

theorem satConcCell_none (npexp : ℚ → ℚ) (kH dHdT : ℚ) (wt srcg b : Cell)
    (h : wt = none ∨ srcg = none ∨ b = none) :
    satConcCell npexp kH dHdT wt srcg b = none := by
  rcases h with rfl | rfl | rfl <;>
    simp [satConcCell, oMul, oAdd, oSub, oDiv, oExp,
      oAdd_none_right, oSub_none_right, oMul_none_right, oDiv_none_right]

theorem percSatCell_conc_none (sat : Cell) : percSatCell none sat = none := by
  cases sat <;> rfl

theorem percSatCell_sat_none (conc : Cell) : percSatCell conc none = none := by
  cases conc <;> rfl

theorem percSatCell_sat_zero (conc : Cell) : percSatCell conc (some 0) = none := by
  cases conc <;> simp [percSatCell, oMul, oDiv]

/-! Step lemmas: each statement block of the two calculators, reduced. -/

theorem replaceNaNStep_eq (f : Frame) (src : String) (d : ℚ) (col : Col)
    (h : getCol f src = some col) :
    replaceNaNStep f src d = some (setCol f src (defaultCol d col)) := by
  simp [replaceNaNStep, h]

theorem dissolvedStep_eq (npexp : ℚ → ℚ) (kH dHdT : ℚ) (f : Frame)
    (colName baro volGas volH2O headspaceTemp eqg srcg : String)
    (b g w hs e a : Col)
    (n1 : baro ≠ colName) (n2 : volGas ≠ colName) (n3 : volH2O ≠ colName)
    (n4 : headspaceTemp ≠ colName) (n5 : eqg ≠ colName) (n6 : srcg ≠ colName)
    (hb : getCol f baro = some b) (hg : getCol f volGas = some g)
    (hw : getCol f volH2O = some w) (hhs : getCol f headspaceTemp = some hs)
    (he : getCol f eqg = some e) (ha : getCol f srcg = some a) :
    dissolvedStep npexp kH dHdT f colName baro volGas volH2O headspaceTemp eqg srcg =
      some (setCol f colName (dissolvedCol npexp kH dHdT b g w hs e a)) := by
  simp [dissolvedStep, getCol_setCol, n1, n2, n3, n4, n5, n6,
    hb, hg, hw, hhs, he, ha, setCol_setCol]

theorem satConcStep_eq (npexp : ℚ → ℚ) (kH dHdT : ℚ) (f : Frame)
    (colName waterTemp srcg baro : String) (t a b : Col)
    (n1 : waterTemp ≠ colName) (n2 : srcg ≠ colName) (n3 : baro ≠ colName)
    (ht : getCol f waterTemp = some t) (ha : getCol f srcg = some a)
    (hb : getCol f baro = some b) :
    satConcStep npexp kH dHdT f colName waterTemp srcg baro =
      some (setCol f colName (satConcCol npexp kH dHdT t a b)) := by
  simp [satConcStep, getCol_setCol, n1, n2, n3, ht, ha, hb, setCol_setCol]

theorem percSatStep_eq (f : Frame) (outName concName satName : String) (c v : Col)
    (hc : getCol f concName = some c) (hv : getCol f satName = some v) :
    percSatStep f outName concName satName = some (setCol f outName (percSatCol c v)) := by
  simp [percSatStep, hc, hv]

theorem astypeStep_eq (f : Frame) (c : String) (v : Col) (h : getCol f c = some v) :
    astypeStep f c = some (setCol f c v) := by
  simp [astypeStep, h]


/-! Master lemmas: full characterization of each calculator's output frame
under the canonical (default) column names. -/

theorem def_calc_sdg_conc_spec (npexp : ℚ → ℚ) (f : Frame)
    (b vg vw hs eC sC eM sM eN sN : Col)
    (hb : getCol f "barometricPressure" = some b)
    (hvg : getCol f "gasVolume" = some vg)
    (hvw : getCol f "waterVolume" = some vw)
    (hhs : getCol f "headspaceTemp" = some hs)
    (heC : getCol f "concentrationCO2Gas" = some eC)
    (hsC : getCol f "concentrationCO2Air" = some sC)
    (heM : getCol f "concentrationCH4Gas" = some eM)
    (hsM : getCol f "concentrationCH4Air" = some sM)
    (heN : getCol f "concentrationN2OGas" = some eN)
    (hsN : getCol f "concentrationN2OAir" = some sN) :
    ∃ out, def_calc_sdg_conc npexp f = some out ∧
      getCol out "concentrationCO2Air" = some (defaultCol 405 sC) ∧
      getCol out "concentrationCH4Air" = some (defaultCol 1.85 sM) ∧
      getCol out "concentrationN2OAir" = some (defaultCol 0.330 sN) ∧
      getCol out "dissolvedCO2" =
        some (dissolvedCol npexp ckHCO2 cdHdTCO2 b vg vw hs eC (defaultCol 405 sC)) ∧
      getCol out "dissolvedCH4" =
        some (dissolvedCol npexp ckHCH4 cdHdTCH4 b vg vw hs eM (defaultCol 1.85 sM)) ∧
      getCol out "dissolvedN2O" =
        some (dissolvedCol npexp ckHN2O cdHdTN2O b vg vw hs eN (defaultCol 0.330 sN)) ∧
      getCol out "gasVolume" = some vg ∧
      getCol out "waterVolume" = some vw ∧
      ∀ n, n ≠ "concentrationCO2Air" → n ≠ "concentrationCH4Air" →
        n ≠ "concentrationN2OAir" → n ≠ "dissolvedCO2" → n ≠ "dissolvedCH4" →
        n ≠ "dissolvedN2O" → getCol out n = getCol f n := by
  simp only [def_calc_sdg_conc, replaceNaNStep, dissolvedStep, astypeStep,
    getCol_setCol, setCol_setCol, hb, hvg, hvw, hhs, heC, hsC, heM, hsM, heN, hsN,
    Option.map_some', Option.some_bind, String.reduceEq, reduceIte]
  refine ⟨_, rfl, ?_, ?_, ?_, ?_, ?_, ?_, ?_, ?_, ?_⟩
  · simp [getCol_setCol]
  · simp [getCol_setCol]
  · simp [getCol_setCol]
  · simp [getCol_setCol]
  · simp [getCol_setCol]
  · simp [getCol_setCol]
  · simp [getCol_setCol]
  · simp [getCol_setCol]
  · intro n k1 k2 k3 k4 k5 k6
    by_cases k7 : n = "gasVolume"
    · subst k7; simp [getCol_setCol, hvg]
    · by_cases k8 : n = "waterVolume"
      · subst k8; simp [getCol_setCol, hvw]
      · simp [getCol_setCol, k1, k2, k3, k4, k5, k6, k7, k8]

theorem def_calc_sdg_sat_spec (npexp : ℚ → ℚ) (f : Frame)
    (b wt sC sM sN dC dM dN : Col)
    (hb : getCol f "barometricPressure" = some b)
    (hwt : getCol f "waterTemp" = some wt)
    (hsC : getCol f "concentrationCO2Air" = some sC)
    (hsM : getCol f "concentrationCH4Air" = some sM)
    (hsN : getCol f "concentrationN2OAir" = some sN)
    (hdC : getCol f "dissolvedCO2" = some dC)
    (hdM : getCol f "dissolvedCH4" = some dM)
    (hdN : getCol f "dissolvedN2O" = some dN) :
    ∃ out, def_calc_sdg_sat npexp f = some out ∧
      getCol out "concentrationCO2Air" = some (defaultCol 405 sC) ∧
      getCol out "concentrationCH4Air" = some (defaultCol 1.85 sM) ∧
      getCol out "concentrationN2OAir" = some (defaultCol 0.330 sN) ∧
      getCol out "satConcCO2" =
        some (satConcCol npexp ckHCO2 cdHdTCO2 wt (defaultCol 405 sC) b) ∧
      getCol out "satConcCH4" =
        some (satConcCol npexp ckHCH4 cdHdTCH4 wt (defaultCol 1.85 sM) b) ∧
      getCol out "satConcN2O" =
        some (satConcCol npexp ckHN2O cdHdTN2O wt (defaultCol 0.330 sN) b) ∧
      getCol out "CO2PercSat" =
        some (percSatCol dC (satConcCol npexp ckHCO2 cdHdTCO2 wt (defaultCol 405 sC) b)) ∧
      getCol out "CH4PercSat" =
        some (percSatCol dM (satConcCol npexp ckHCH4 cdHdTCH4 wt (defaultCol 1.85 sM) b)) ∧
      getCol out "N2OPercSat" =
        some (percSatCol dN (satConcCol npexp ckHN2O cdHdTN2O wt (defaultCol 0.330 sN) b)) ∧
      getCol out "dissolvedCO2" = some dC ∧
      getCol out "dissolvedCH4" = some dM ∧
      getCol out "dissolvedN2O" = some dN ∧
      ∀ n, n ≠ "concentrationCO2Air" → n ≠ "concentrationCH4Air" →
        n ≠ "concentrationN2OAir" → n ≠ "satConcCO2" → n ≠ "satConcCH4" →
        n ≠ "satConcN2O" → n ≠ "CO2PercSat" → n ≠ "CH4PercSat" →
        n ≠ "N2OPercSat" → getCol out n = getCol f n := by
  simp only [def_calc_sdg_sat, replaceNaNStep, satConcStep, percSatStep,
    getCol_setCol, setCol_setCol, hb, hwt, hsC, hsM, hsN, hdC, hdM, hdN,
    Option.map_some', Option.some_bind, String.reduceEq, reduceIte]
  refine ⟨_, rfl, ?_, ?_, ?_, ?_, ?_, ?_, ?_, ?_, ?_, ?_, ?_, ?_, ?_⟩
  · simp [getCol_setCol]
  · simp [getCol_setCol]
  · simp [getCol_setCol]
  · simp [getCol_setCol]
  · simp [getCol_setCol]
  · simp [getCol_setCol]
  · simp [getCol_setCol]
  · simp [getCol_setCol]
  · simp [getCol_setCol]
  · simp [getCol_setCol, hdC]
  · simp [getCol_setCol, hdM]
  · simp [getCol_setCol, hdN]
  · intro n k1 k2 k3 k4 k5 k6 k7 k8 k9
    simp [getCol_setCol, k1, k2, k3, k4, k5, k6, k7, k8, k9]


/-! Formatter lemmas. -/

theorem def_format_flags_eq (t : List FieldRow) :
    def_format_flags t = t.map flaggedRow := by
  simp only [def_format_flags, pyIsTrue, Bool.false_eq_true, if_false, List.map_map]
  rfl

theorem labStepCO2_eq_of_ref_fail (lab : List LabRow) (r : OutRow)
    (h : labItem lab r.referenceAirSampleID LabRow.concentrationCO2 = none) :
    labStepCO2 lab r = r := by
  unfold labStepCO2
  rw [h]

theorem labStepCO2_gas_of_eq_fail (lab : List LabRow) (r : OutRow)
    (h : labItem lab r.equilibratedAirSampleID LabRow.concentrationCO2 = none) :
    (labStepCO2 lab r).concentrationCO2Gas = r.concentrationCO2Gas := by
  unfold labStepCO2
  cases labItem lab r.referenceAirSampleID LabRow.concentrationCO2 with
  | none => rfl
  | some a => rw [h]

theorem labStepCO2_preserves (lab : List LabRow) (r : OutRow) :
    (labStepCO2 lab r).waterSampleID = r.waterSampleID ∧
    (labStepCO2 lab r).referenceAirSampleID = r.referenceAirSampleID ∧
    (labStepCO2 lab r).equilibratedAirSampleID = r.equilibratedAirSampleID ∧
    (labStepCO2 lab r).waterTemp = r.waterTemp ∧
    (labStepCO2 lab r).headspaceTemp = r.headspaceTemp ∧
    (labStepCO2 lab r).concentrationCH4Air = r.concentrationCH4Air ∧
    (labStepCO2 lab r).concentrationCH4Gas = r.concentrationCH4Gas ∧
    (labStepCO2 lab r).concentrationN2OAir = r.concentrationN2OAir ∧
    (labStepCO2 lab r).concentrationN2OGas = r.concentrationN2OGas := by
  unfold labStepCO2
  cases labItem lab r.referenceAirSampleID LabRow.concentrationCO2 with
  | none => exact ⟨rfl, rfl, rfl, rfl, rfl, rfl, rfl, rfl, rfl⟩
  | some a =>
    cases labItem lab r.equilibratedAirSampleID LabRow.concentrationCO2 with
    | none => exact ⟨rfl, rfl, rfl, rfl, rfl, rfl, rfl, rfl, rfl⟩
    | some g => exact ⟨rfl, rfl, rfl, rfl, rfl, rfl, rfl, rfl, rfl⟩

theorem labStepCH4_eq_of_ref_fail (lab : List LabRow) (r : OutRow)
    (h : labItem lab r.referenceAirSampleID LabRow.concentrationCH4 = none) :
    labStepCH4 lab r = r := by
  unfold labStepCH4
  rw [h]

theorem labStepCH4_gas_of_eq_fail (lab : List LabRow) (r : OutRow)
    (h : labItem lab r.equilibratedAirSampleID LabRow.concentrationCH4 = none) :
    (labStepCH4 lab r).concentrationCH4Gas = r.concentrationCH4Gas := by
  unfold labStepCH4
  cases labItem lab r.referenceAirSampleID LabRow.concentrationCH4 with
  | none => rfl
  | some a => rw [h]

theorem labStepCH4_preserves (lab : List LabRow) (r : OutRow) :
    (labStepCH4 lab r).waterSampleID = r.waterSampleID ∧
    (labStepCH4 lab r).referenceAirSampleID = r.referenceAirSampleID ∧
    (labStepCH4 lab r).equilibratedAirSampleID = r.equilibratedAirSampleID ∧
    (labStepCH4 lab r).waterTemp = r.waterTemp ∧
    (labStepCH4 lab r).headspaceTemp = r.headspaceTemp ∧
    (labStepCH4 lab r).concentrationCO2Air = r.concentrationCO2Air ∧
    (labStepCH4 lab r).concentrationCO2Gas = r.concentrationCO2Gas ∧
    (labStepCH4 lab r).concentrationN2OAir = r.concentrationN2OAir ∧
    (labStepCH4 lab r).concentrationN2OGas = r.concentrationN2OGas := by
  unfold labStepCH4
  cases labItem lab r.referenceAirSampleID LabRow.concentrationCH4 with
  | none => exact ⟨rfl, rfl, rfl, rfl, rfl, rfl, rfl, rfl, rfl⟩
  | some a =>
    cases labItem lab r.equilibratedAirSampleID LabRow.concentrationCH4 with
    | none => exact ⟨rfl, rfl, rfl, rfl, rfl, rfl, rfl, rfl, rfl⟩
    | some g => exact ⟨rfl, rfl, rfl, rfl, rfl, rfl, rfl, rfl, rfl⟩

theorem labStepN2O_eq_of_ref_fail (lab : List LabRow) (r : OutRow)
    (h : labItem lab r.referenceAirSampleID LabRow.concentrationN2O = none) :
    labStepN2O lab r = r := by
  unfold labStepN2O
  rw [h]

theorem labStepN2O_gas_of_eq_fail (lab : List LabRow) (r : OutRow)
    (h : labItem lab r.equilibratedAirSampleID LabRow.concentrationN2O = none) :
    (labStepN2O lab r).concentrationN2OGas = r.concentrationN2OGas := by
  unfold labStepN2O
  cases labItem lab r.referenceAirSampleID LabRow.concentrationN2O with
  | none => rfl
  | some a => rw [h]

theorem labStepN2O_preserves (lab : List LabRow) (r : OutRow) :
    (labStepN2O lab r).waterSampleID = r.waterSampleID ∧
    (labStepN2O lab r).referenceAirSampleID = r.referenceAirSampleID ∧
    (labStepN2O lab r).equilibratedAirSampleID = r.equilibratedAirSampleID ∧
    (labStepN2O lab r).waterTemp = r.waterTemp ∧
    (labStepN2O lab r).headspaceTemp = r.headspaceTemp ∧
    (labStepN2O lab r).concentrationCO2Air = r.concentrationCO2Air ∧
    (labStepN2O lab r).concentrationCO2Gas = r.concentrationCO2Gas ∧
    (labStepN2O lab r).concentrationCH4Air = r.concentrationCH4Air ∧
    (labStepN2O lab r).concentrationCH4Gas = r.concentrationCH4Gas := by
  unfold labStepN2O
  cases labItem lab r.referenceAirSampleID LabRow.concentrationN2O with
  | none => exact ⟨rfl, rfl, rfl, rfl, rfl, rfl, rfl, rfl, rfl⟩
  | some a =>
    cases labItem lab r.equilibratedAirSampleID LabRow.concentrationN2O with
    | none => exact ⟨rfl, rfl, rfl, rfl, rfl, rfl, rfl, rfl, rfl⟩
    | some g => exact ⟨rfl, rfl, rfl, rfl, rfl, rfl, rfl, rfl, rfl⟩

theorem parentStepA_preserves (ps : List ParentRow) (r : OutRow) :
    (parentStepA ps r).waterSampleID = r.waterSampleID ∧
    (parentStepA ps r).headspaceTemp = r.headspaceTemp ∧
    (parentStepA ps r).concentrationCO2Air = r.concentrationCO2Air ∧
    (parentStepA ps r).concentrationCO2Gas = r.concentrationCO2Gas ∧
    (parentStepA ps r).concentrationCH4Air = r.concentrationCH4Air ∧
    (parentStepA ps r).concentrationCH4Gas = r.concentrationCH4Gas ∧
    (parentStepA ps r).concentrationN2OAir = r.concentrationN2OAir ∧
    (parentStepA ps r).concentrationN2OGas = r.concentrationN2OGas := by
  unfold parentStepA
  cases parentItem ps r.waterSampleID with
  | none => exact ⟨rfl, rfl, rfl, rfl, rfl, rfl, rfl, rfl⟩
  | some w => exact ⟨rfl, rfl, rfl, rfl, rfl, rfl, rfl, rfl⟩

theorem parentStepA_waterTemp_of_fail (ps : List ParentRow) (r : OutRow)
    (h : parentItem ps r.waterSampleID = none) :
    (parentStepA ps r).waterTemp = r.waterTemp := by
  unfold parentStepA
  rw [h]

theorem parentStepB_preserves (ps : List ParentRow) (r : OutRow) :
    (parentStepB ps r).waterSampleID = r.waterSampleID ∧
    (parentStepB ps r).waterTemp = r.waterTemp ∧
    (parentStepB ps r).concentrationCO2Air = r.concentrationCO2Air ∧
    (parentStepB ps r).concentrationCO2Gas = r.concentrationCO2Gas ∧
    (parentStepB ps r).concentrationCH4Air = r.concentrationCH4Air ∧
    (parentStepB ps r).concentrationCH4Gas = r.concentrationCH4Gas ∧
    (parentStepB ps r).concentrationN2OAir = r.concentrationN2OAir ∧
    (parentStepB ps r).concentrationN2OGas = r.concentrationN2OGas := by
  unfold parentStepB
  by_cases h : r.headspaceTemp.isNone
  · rw [if_pos h]
    cases parentItem ps r.waterSampleID with
    | none => exact ⟨rfl, rfl, rfl, rfl, rfl, rfl, rfl, rfl⟩
    | some w => exact ⟨rfl, rfl, rfl, rfl, rfl, rfl, rfl, rfl⟩
  · rw [if_neg h]
    exact ⟨rfl, rfl, rfl, rfl, rfl, rfl, rfl, rfl⟩

theorem def_format_sdg_length (fieldDataProc : List FieldRow)
    (externalLabData : List LabRow) (fieldSuperParent : List ParentRow) :
    (def_format_sdg fieldDataProc externalLabData fieldSuperParent).length =
      fieldDataProc.length := by
  simp [def_format_sdg, def_format_flags_eq]

theorem def_format_sdg_getElem (fieldDataProc : List FieldRow)
    (externalLabData : List LabRow) (fieldSuperParent : List ParentRow)
    (i : ℕ) (fr : FieldRow) (h : fieldDataProc[i]? = some fr) :
    (def_format_sdg fieldDataProc externalLabData fieldSuperParent)[i]? =
      some (parentStep fieldSuperParent (labStep externalLabData
        (initOut (flaggedRow fr)))) := by
  simp [def_format_sdg, def_format_flags_eq, List.getElem?_map, h]


/-! Claim theorems with their witnesses. -/

/-- Claim C1: for every row of the input table in which `barometricPressure`,
`gasVolume`, `waterVolume`, `headspaceTemp` and the equilibrated-gas
concentration are non-null (and the real-number formula is defined there:
the headspace temperature is not -273.15 °C and the water volume is not
zero), `def_calc_sdg_conc` computes `dissolved<Gas>` for each of CO2, CH4,
N2O as `baro * 1e-6 * (volGas * (eqGas - sourceGas) / (R * (headspaceTemp +
273.15) * volH2O) + kH * exp(dHdT * (1/(headspaceTemp + 273.15) - 1/298.15))
* eqGas)` with `R = 8.3144598` and per-gas constants CO2 (kH=0.00033,
dHdT=2400), CH4 (kH=0.000014, dHdT=1900), N2O (kH=0.00024, dHdT=2700), where
`sourceGas` is the reference-air concentration after defaulting; the result
cell equals the formula value unclamped, also when negative. -/
theorem claim_C1_dissolved_formula (npexp : ℚ → ℚ) (f : Frame)
    (b vg vw hs eC sC eM sM eN sN : Col)
    (hb : getCol f "barometricPressure" = some b)
    (hvg : getCol f "gasVolume" = some vg)
    (hvw : getCol f "waterVolume" = some vw)
    (hhs : getCol f "headspaceTemp" = some hs)
    (heC : getCol f "concentrationCO2Gas" = some eC)
    (hsC : getCol f "concentrationCO2Air" = some sC)
    (heM : getCol f "concentrationCH4Gas" = some eM)
    (hsM : getCol f "concentrationCH4Air" = some sM)
    (heN : getCol f "concentrationN2OGas" = some eN)
    (hsN : getCol f "concentrationN2OAir" = some sN)
    (i : ℕ) (hiB : i < b.length) (hiSC : i < sC.length) (hiSM : i < sM.length)
    (hiSN : i < sN.length)
    (bv gv wv hv eCv eMv eNv : ℚ)
    (hbv : b.getD i none = some bv) (hgv : vg.getD i none = some gv)
    (hwv : vw.getD i none = some wv) (hhv : hs.getD i none = some hv)
    (heCv : eC.getD i none = some eCv) (heMv : eM.getD i none = some eMv)
    (heNv : eN.getD i none = some eNv)
    (hT : hv + cKelvin ≠ 0) (hW : wv ≠ 0) :
    ∃ out, def_calc_sdg_conc npexp f = some out ∧
      cellAt out "dissolvedCO2" i =
        some (dissolvedSpec npexp ckHCO2 cdHdTCO2 bv gv wv hv eCv
          ((sC.getD i none).getD 405)) ∧
      cellAt out "dissolvedCH4" i =
        some (dissolvedSpec npexp ckHCH4 cdHdTCH4 bv gv wv hv eMv
          ((sM.getD i none).getD 1.85)) ∧
      cellAt out "dissolvedN2O" i =
        some (dissolvedSpec npexp ckHN2O cdHdTN2O bv gv wv hv eNv
          ((sN.getD i none).getD 0.330)) := by
  obtain ⟨out, hout, hA1, hA2, hA3, hD1, hD2, hD3, hGV, hWV, hrest⟩ :=
    def_calc_sdg_conc_spec npexp f b vg vw hs eC sC eM sM eN sN
      hb hvg hvw hhs heC hsC heM hsM heN hsN
  refine ⟨out, hout, ?_, ?_, ?_⟩
  · rw [cellAt, hD1, Option.getD_some,
      dissolvedCol_getD _ _ _ _ _ _ _ _ _ i hiB, hbv, hgv, hwv, hhv, heCv,
      defaultCol_getD _ _ _ hiSC, dissolvedCell_eval _ _ _ _ _ _ _ _ _ hT hW]
    simp only [dissolvedSpec, cGas, cKelvin, cPresConv, cT0]
  · rw [cellAt, hD2, Option.getD_some,
      dissolvedCol_getD _ _ _ _ _ _ _ _ _ i hiB, hbv, hgv, hwv, hhv, heMv,
      defaultCol_getD _ _ _ hiSM, dissolvedCell_eval _ _ _ _ _ _ _ _ _ hT hW]
    simp only [dissolvedSpec, cGas, cKelvin, cPresConv, cT0]
  · rw [cellAt, hD3, Option.getD_some,
      dissolvedCol_getD _ _ _ _ _ _ _ _ _ i hiB, hbv, hgv, hwv, hhv, heNv,
      defaultCol_getD _ _ _ hiSN, dissolvedCell_eval _ _ _ _ _ _ _ _ _ hT hW]
    simp only [dissolvedSpec, cGas, cKelvin, cPresConv, cT0]

/-- Witness for C1 at `wFrame`, row 0 (reference-air CO2 and N2O missing,
hence the 405 and 0.330 defaults enter the formula). -/
theorem claim_C1_dissolved_formula_witness :
    (getCol wFrame "barometricPressure" = some wBaro ∧
      getCol wFrame "gasVolume" = some wVolGas ∧
      getCol wFrame "waterVolume" = some wVolH2O ∧
      getCol wFrame "headspaceTemp" = some wHeadspaceTemp ∧
      getCol wFrame "concentrationCO2Gas" = some wEqCO2 ∧
      getCol wFrame "concentrationCO2Air" = some wSrcCO2 ∧
      getCol wFrame "concentrationCH4Gas" = some wEqCH4 ∧
      getCol wFrame "concentrationCH4Air" = some wSrcCH4 ∧
      getCol wFrame "concentrationN2OGas" = some wEqN2O ∧
      getCol wFrame "concentrationN2OAir" = some wSrcN2O ∧
      0 < wBaro.length ∧ 0 < wSrcCO2.length ∧ 0 < wSrcCH4.length ∧
      0 < wSrcN2O.length ∧
      wBaro.getD 0 none = some 98 ∧ wVolGas.getD 0 none = some 20 ∧
      wVolH2O.getD 0 none = some 40 ∧ wHeadspaceTemp.getD 0 none = some 22 ∧
      wEqCO2.getD 0 none = some 1200 ∧ wEqCH4.getD 0 none = some 2 ∧
      wEqN2O.getD 0 none = some 1 ∧
      (22 : ℚ) + cKelvin ≠ 0 ∧ (40 : ℚ) ≠ 0) ∧
    (∃ out, def_calc_sdg_conc (fun q => q) wFrame = some out ∧
      cellAt out "dissolvedCO2" 0 =
        some (dissolvedSpec (fun q => q) ckHCO2 cdHdTCO2 98 20 40 22 1200
          ((wSrcCO2.getD 0 none).getD 405)) ∧
      cellAt out "dissolvedCH4" 0 =
        some (dissolvedSpec (fun q => q) ckHCH4 cdHdTCH4 98 20 40 22 2
          ((wSrcCH4.getD 0 none).getD 1.85)) ∧
      cellAt out "dissolvedN2O" 0 =
        some (dissolvedSpec (fun q => q) ckHN2O cdHdTN2O 98 20 40 22 1
          ((wSrcN2O.getD 0 none).getD 0.330))) :=
  ⟨⟨rfl, rfl, rfl, rfl, rfl, rfl, rfl, rfl, rfl, rfl,
    by norm_num [wBaro], by norm_num [wSrcCO2], by norm_num [wSrcCH4],
    by norm_num [wSrcN2O],
    rfl, rfl, rfl, rfl, rfl, rfl, rfl,
    by norm_num [cKelvin], by norm_num⟩,
  claim_C1_dissolved_formula (fun q => q) wFrame wBaro wVolGas wVolH2O
    wHeadspaceTemp wEqCO2 wSrcCO2 wEqCH4 wSrcCH4 wEqN2O wSrcN2O
    rfl rfl rfl rfl rfl rfl rfl rfl rfl rfl
    0 (by norm_num [wBaro]) (by norm_num [wSrcCO2]) (by norm_num [wSrcCH4])
    (by norm_num [wSrcN2O])
    98 20 40 22 1200 2 1
    rfl rfl rfl rfl rfl rfl rfl
    (by norm_num [cKelvin]) (by norm_num)⟩


/-- Claim C2: for every row (with non-null water temperature and barometric
pressure, away from -273.15 °C where the real-number formula is undefined),
`def_calc_sdg_sat` computes `satConc<Gas> = kH * exp(dHdT * (1/(waterTemp +
273.15) - 1/298.15)) * sourceGas * baro * 1e-6`, evaluated at ambient water
temperature and with the reference-air concentration after defaulting; and
for every row and every gas it computes `<Gas>PercSat` exactly as
`dissolved<Gas> / satConc<Gas> * 100` from the two intermediate columns, in
the NaN/non-finite-propagating cell arithmetic. -/
theorem claim_C2_saturation_formulas (npexp : ℚ → ℚ) (f : Frame)
    (b wt sC sM sN dC dM dN : Col)
    (hb : getCol f "barometricPressure" = some b)
    (hwt : getCol f "waterTemp" = some wt)
    (hsC : getCol f "concentrationCO2Air" = some sC)
    (hsM : getCol f "concentrationCH4Air" = some sM)
    (hsN : getCol f "concentrationN2OAir" = some sN)
    (hdC : getCol f "dissolvedCO2" = some dC)
    (hdM : getCol f "dissolvedCH4" = some dM)
    (hdN : getCol f "dissolvedN2O" = some dN)
    (i : ℕ) (hiW : i < wt.length) (hiSC : i < sC.length) (hiSM : i < sM.length)
    (hiSN : i < sN.length) (hiDC : i < dC.length) (hiDM : i < dM.length)
    (hiDN : i < dN.length)
    (wv pv : ℚ) (hwv : wt.getD i none = some wv) (hpv : b.getD i none = some pv)
    (hT : wv + cKelvin ≠ 0) :
    ∃ out, def_calc_sdg_sat npexp f = some out ∧
      cellAt out "satConcCO2" i =
        some (satConcSpec npexp ckHCO2 cdHdTCO2 wv ((sC.getD i none).getD 405) pv) ∧
      cellAt out "satConcCH4" i =
        some (satConcSpec npexp ckHCH4 cdHdTCH4 wv ((sM.getD i none).getD 1.85) pv) ∧
      cellAt out "satConcN2O" i =
        some (satConcSpec npexp ckHN2O cdHdTN2O wv ((sN.getD i none).getD 0.330) pv) ∧
      cellAt out "CO2PercSat" i =
        oMul (oDiv (cellAt out "dissolvedCO2" i) (cellAt out "satConcCO2" i)) (some 100) ∧
      cellAt out "CH4PercSat" i =
        oMul (oDiv (cellAt out "dissolvedCH4" i) (cellAt out "satConcCH4" i)) (some 100) ∧
      cellAt out "N2OPercSat" i =
        oMul (oDiv (cellAt out "dissolvedN2O" i) (cellAt out "satConcN2O" i)) (some 100) := by
  obtain ⟨out, hout, hA1, hA2, hA3, hS1, hS2, hS3, hP1, hP2, hP3, hD1, hD2, hD3, hrest⟩ :=
    def_calc_sdg_sat_spec npexp f b wt sC sM sN dC dM dN hb hwt hsC hsM hsN hdC hdM hdN
  refine ⟨out, hout, ?_, ?_, ?_, ?_, ?_, ?_⟩
  · rw [cellAt, hS1, Option.getD_some, satConcCol_getD _ _ _ _ _ _ i hiW, hwv, hpv,
      defaultCol_getD _ _ _ hiSC, satConcCell_eval _ _ _ _ _ _ hT]
    simp only [satConcSpec, cKelvin, cPresConv, cT0]
  · rw [cellAt, hS2, Option.getD_some, satConcCol_getD _ _ _ _ _ _ i hiW, hwv, hpv,
      defaultCol_getD _ _ _ hiSM, satConcCell_eval _ _ _ _ _ _ hT]
    simp only [satConcSpec, cKelvin, cPresConv, cT0]
  · rw [cellAt, hS3, Option.getD_some, satConcCol_getD _ _ _ _ _ _ i hiW, hwv, hpv,
      defaultCol_getD _ _ _ hiSN, satConcCell_eval _ _ _ _ _ _ hT]
    simp only [satConcSpec, cKelvin, cPresConv, cT0]
  · rw [cellAt, hP1, Option.getD_some, percSatCol_getD _ _ i hiDC,
      cellAt, hD1, Option.getD_some, cellAt, hS1, Option.getD_some]
    simp only [percSatCell, cConcPerc]
  · rw [cellAt, hP2, Option.getD_some, percSatCol_getD _ _ i hiDM,
      cellAt, hD2, Option.getD_some, cellAt, hS2, Option.getD_some]
    simp only [percSatCell, cConcPerc]
  · rw [cellAt, hP3, Option.getD_some, percSatCol_getD _ _ i hiDN,
      cellAt, hD3, Option.getD_some, cellAt, hS3, Option.getD_some]
    simp only [percSatCell, cConcPerc]

/-- Witness for C2 at `wFrame`, row 0. -/
theorem claim_C2_saturation_formulas_witness :
    (getCol wFrame "barometricPressure" = some wBaro ∧
      getCol wFrame "waterTemp" = some wWaterTemp ∧
      getCol wFrame "concentrationCO2Air" = some wSrcCO2 ∧
      getCol wFrame "concentrationCH4Air" = some wSrcCH4 ∧
      getCol wFrame "concentrationN2OAir" = some wSrcN2O ∧
      getCol wFrame "dissolvedCO2" = some wDisCO2 ∧
      getCol wFrame "dissolvedCH4" = some wDisCH4 ∧
      getCol wFrame "dissolvedN2O" = some wDisN2O ∧
      0 < wWaterTemp.length ∧ 0 < wSrcCO2.length ∧ 0 < wSrcCH4.length ∧
      0 < wSrcN2O.length ∧ 0 < wDisCO2.length ∧ 0 < wDisCH4.length ∧
      0 < wDisN2O.length ∧
      wWaterTemp.getD 0 none = some 15 ∧ wBaro.getD 0 none = some 98 ∧
      (15 : ℚ) + cKelvin ≠ 0) ∧
    (∃ out, def_calc_sdg_sat (fun q => q) wFrame = some out ∧
      cellAt out "satConcCO2" 0 =
        some (satConcSpec (fun q => q) ckHCO2 cdHdTCO2 15 ((wSrcCO2.getD 0 none).getD 405) 98) ∧
      cellAt out "satConcCH4" 0 =
        some (satConcSpec (fun q => q) ckHCH4 cdHdTCH4 15 ((wSrcCH4.getD 0 none).getD 1.85) 98) ∧
      cellAt out "satConcN2O" 0 =
        some (satConcSpec (fun q => q) ckHN2O cdHdTN2O 15 ((wSrcN2O.getD 0 none).getD 0.330) 98) ∧
      cellAt out "CO2PercSat" 0 =
        oMul (oDiv (cellAt out "dissolvedCO2" 0) (cellAt out "satConcCO2" 0)) (some 100) ∧
      cellAt out "CH4PercSat" 0 =
        oMul (oDiv (cellAt out "dissolvedCH4" 0) (cellAt out "satConcCH4" 0)) (some 100) ∧
      cellAt out "N2OPercSat" 0 =
        oMul (oDiv (cellAt out "dissolvedN2O" 0) (cellAt out "satConcN2O" 0)) (some 100)) :=
  ⟨⟨rfl, rfl, rfl, rfl, rfl, rfl, rfl, rfl,
    by norm_num [wWaterTemp], by norm_num [wSrcCO2], by norm_num [wSrcCH4],
    by norm_num [wSrcN2O], by norm_num [wDisCO2], by norm_num [wDisCH4],
    by norm_num [wDisN2O], rfl, rfl, by norm_num [cKelvin]⟩,
  claim_C2_saturation_formulas (fun q => q) wFrame wBaro wWaterTemp
    wSrcCO2 wSrcCH4 wSrcN2O wDisCO2 wDisCH4 wDisN2O
    rfl rfl rfl rfl rfl rfl rfl rfl
    0 (by norm_num [wWaterTemp]) (by norm_num [wSrcCO2]) (by norm_num [wSrcCH4])
    (by norm_num [wSrcN2O]) (by norm_num [wDisCO2]) (by norm_num [wDisCH4])
    (by norm_num [wDisN2O])
    15 98 rfl rfl (by norm_num [cKelvin])⟩

/-- Claim C3: both `def_calc_sdg_conc` and `def_calc_sdg_sat` replace a null
reference-air concentration (`concentration<Gas>Air`) in a row by the fixed
global background value — CO2: 405 ppmv, CH4: 1.85 ppmv, N2O: 0.330 ppmv —
before computing derived columns, and a row whose reference-air value is
non-null keeps that value unchanged (the resulting cell is
`some ((original).getD default)`); each component applies the defaulting to
its own input frame, independently of the other. -/
theorem claim_C3_reference_air_defaulting (npexp : ℚ → ℚ) (f g : Frame)
    (b vg vw hs eC sC eM sM eN sN : Col)
    (hb : getCol f "barometricPressure" = some b)
    (hvg : getCol f "gasVolume" = some vg)
    (hvw : getCol f "waterVolume" = some vw)
    (hhs : getCol f "headspaceTemp" = some hs)
    (heC : getCol f "concentrationCO2Gas" = some eC)
    (hsC : getCol f "concentrationCO2Air" = some sC)
    (heM : getCol f "concentrationCH4Gas" = some eM)
    (hsM : getCol f "concentrationCH4Air" = some sM)
    (heN : getCol f "concentrationN2OGas" = some eN)
    (hsN : getCol f "concentrationN2OAir" = some sN)
    (b2 wt2 uC uM uN dC dM dN : Col)
    (hb2 : getCol g "barometricPressure" = some b2)
    (hwt2 : getCol g "waterTemp" = some wt2)
    (huC : getCol g "concentrationCO2Air" = some uC)
    (huM : getCol g "concentrationCH4Air" = some uM)
    (huN : getCol g "concentrationN2OAir" = some uN)
    (hdC : getCol g "dissolvedCO2" = some dC)
    (hdM : getCol g "dissolvedCH4" = some dM)
    (hdN : getCol g "dissolvedN2O" = some dN)
    (i j : ℕ) (hiC : i < sC.length) (hiM : i < sM.length) (hiN : i < sN.length)
    (hjC : j < uC.length) (hjM : j < uM.length) (hjN : j < uN.length) :
    (∃ out, def_calc_sdg_conc npexp f = some out ∧
      cellAt out "concentrationCO2Air" i = some ((sC.getD i none).getD 405) ∧
      cellAt out "concentrationCH4Air" i = some ((sM.getD i none).getD 1.85) ∧
      cellAt out "concentrationN2OAir" i = some ((sN.getD i none).getD 0.330)) ∧
    (∃ out2, def_calc_sdg_sat npexp g = some out2 ∧
      cellAt out2 "concentrationCO2Air" j = some ((uC.getD j none).getD 405) ∧
      cellAt out2 "concentrationCH4Air" j = some ((uM.getD j none).getD 1.85) ∧
      cellAt out2 "concentrationN2OAir" j = some ((uN.getD j none).getD 0.330)) := by
  constructor
  · obtain ⟨out, hout, hA1, hA2, hA3, hrest⟩ :=
      def_calc_sdg_conc_spec npexp f b vg vw hs eC sC eM sM eN sN
        hb hvg hvw hhs heC hsC heM hsM heN hsN
    exact ⟨out, hout,
      by rw [cellAt, hA1, Option.getD_some, defaultCol_getD _ _ _ hiC],
      by rw [cellAt, hA2, Option.getD_some, defaultCol_getD _ _ _ hiM],
      by rw [cellAt, hA3, Option.getD_some, defaultCol_getD _ _ _ hiN]⟩
  · obtain ⟨out2, hout2, hA1, hA2, hA3, hrest⟩ :=
      def_calc_sdg_sat_spec npexp g b2 wt2 uC uM uN dC dM dN
        hb2 hwt2 huC huM huN hdC hdM hdN
    exact ⟨out2, hout2,
      by rw [cellAt, hA1, Option.getD_some, defaultCol_getD _ _ _ hjC],
      by rw [cellAt, hA2, Option.getD_some, defaultCol_getD _ _ _ hjM],
      by rw [cellAt, hA3, Option.getD_some, defaultCol_getD _ _ _ hjN]⟩

/-- Witness for C3 at `wFrame`, rows 0 (null reference air for CO2 and N2O,
defaults enter) and 1 (present reference air, values kept). -/
theorem claim_C3_reference_air_defaulting_witness :
    (getCol wFrame "barometricPressure" = some wBaro ∧
      getCol wFrame "gasVolume" = some wVolGas ∧
      getCol wFrame "waterVolume" = some wVolH2O ∧
      getCol wFrame "headspaceTemp" = some wHeadspaceTemp ∧
      getCol wFrame "concentrationCO2Gas" = some wEqCO2 ∧
      getCol wFrame "concentrationCO2Air" = some wSrcCO2 ∧
      getCol wFrame "concentrationCH4Gas" = some wEqCH4 ∧
      getCol wFrame "concentrationCH4Air" = some wSrcCH4 ∧
      getCol wFrame "concentrationN2OGas" = some wEqN2O ∧
      getCol wFrame "concentrationN2OAir" = some wSrcN2O ∧
      getCol wFrame "waterTemp" = some wWaterTemp ∧
      getCol wFrame "dissolvedCO2" = some wDisCO2 ∧
      getCol wFrame "dissolvedCH4" = some wDisCH4 ∧
      getCol wFrame "dissolvedN2O" = some wDisN2O ∧
      0 < wSrcCO2.length ∧ 0 < wSrcCH4.length ∧ 0 < wSrcN2O.length ∧
      1 < wSrcCO2.length ∧ 1 < wSrcCH4.length ∧ 1 < wSrcN2O.length) ∧
    ((∃ out, def_calc_sdg_conc (fun q => q) wFrame = some out ∧
      cellAt out "concentrationCO2Air" 0 = some ((wSrcCO2.getD 0 none).getD 405) ∧
      cellAt out "concentrationCH4Air" 0 = some ((wSrcCH4.getD 0 none).getD 1.85) ∧
      cellAt out "concentrationN2OAir" 0 = some ((wSrcN2O.getD 0 none).getD 0.330)) ∧
    (∃ out2, def_calc_sdg_sat (fun q => q) wFrame = some out2 ∧
      cellAt out2 "concentrationCO2Air" 1 = some ((wSrcCO2.getD 1 none).getD 405) ∧
      cellAt out2 "concentrationCH4Air" 1 = some ((wSrcCH4.getD 1 none).getD 1.85) ∧
      cellAt out2 "concentrationN2OAir" 1 = some ((wSrcN2O.getD 1 none).getD 0.330))) :=
  ⟨⟨rfl, rfl, rfl, rfl, rfl, rfl, rfl, rfl, rfl, rfl, rfl, rfl, rfl, rfl,
    by norm_num [wSrcCO2], by norm_num [wSrcCH4], by norm_num [wSrcN2O],
    by norm_num [wSrcCO2], by norm_num [wSrcCH4], by norm_num [wSrcN2O]⟩,
  claim_C3_reference_air_defaulting (fun q => q) wFrame wFrame
    wBaro wVolGas wVolH2O wHeadspaceTemp wEqCO2 wSrcCO2 wEqCH4 wSrcCH4 wEqN2O wSrcN2O
    rfl rfl rfl rfl rfl rfl rfl rfl rfl rfl
    wBaro wWaterTemp wSrcCO2 wSrcCH4 wSrcN2O wDisCO2 wDisCH4 wDisN2O
    rfl rfl rfl rfl rfl rfl rfl rfl
    0 1 (by norm_num [wSrcCO2]) (by norm_num [wSrcCH4]) (by norm_num [wSrcN2O])
    (by norm_num [wSrcCO2]) (by norm_num [wSrcCH4]) (by norm_num [wSrcN2O])⟩


/-- Claim C6: for every row, a null required input of a derived column makes
that row's derived cell null in the output — the call completes (returns a
frame rather than raising) and substitutes no zero.  For `dissolved<Gas>` the
required inputs are `barometricPressure`, `gasVolume`, `waterVolume`,
`headspaceTemp` and `concentration<Gas>Gas`; for `satConc<Gas>` (and hence
`<Gas>PercSat`) they are `waterTemp` and `barometricPressure`; `<Gas>PercSat`
is additionally null when `dissolved<Gas>` is null.  The three reference-air
columns are exempt: they receive the documented defaults. -/
theorem claim_C6_null_propagation (npexp : ℚ → ℚ) (f g : Frame)
    (b vg vw hs eC sC eM sM eN sN : Col)
    (hb : getCol f "barometricPressure" = some b)
    (hvg : getCol f "gasVolume" = some vg)
    (hvw : getCol f "waterVolume" = some vw)
    (hhs : getCol f "headspaceTemp" = some hs)
    (heC : getCol f "concentrationCO2Gas" = some eC)
    (hsC : getCol f "concentrationCO2Air" = some sC)
    (heM : getCol f "concentrationCH4Gas" = some eM)
    (hsM : getCol f "concentrationCH4Air" = some sM)
    (heN : getCol f "concentrationN2OGas" = some eN)
    (hsN : getCol f "concentrationN2OAir" = some sN)
    (b2 wt2 uC uM uN dC dM dN : Col)
    (hb2 : getCol g "barometricPressure" = some b2)
    (hwt2 : getCol g "waterTemp" = some wt2)
    (huC : getCol g "concentrationCO2Air" = some uC)
    (huM : getCol g "concentrationCH4Air" = some uM)
    (huN : getCol g "concentrationN2OAir" = some uN)
    (hdC : getCol g "dissolvedCO2" = some dC)
    (hdM : getCol g "dissolvedCH4" = some dM)
    (hdN : getCol g "dissolvedN2O" = some dN)
    (i j : ℕ) (hiB : i < b.length) (hjW : j < wt2.length)
    (hjDC : j < dC.length) (hjDM : j < dM.length) (hjDN : j < dN.length) :
    (∃ out, def_calc_sdg_conc npexp f = some out ∧
      ((b.getD i none = none ∨ vg.getD i none = none ∨ vw.getD i none = none ∨
          hs.getD i none = none ∨ eC.getD i none = none) →
        cellAt out "dissolvedCO2" i = none) ∧
      ((b.getD i none = none ∨ vg.getD i none = none ∨ vw.getD i none = none ∨
          hs.getD i none = none ∨ eM.getD i none = none) →
        cellAt out "dissolvedCH4" i = none) ∧
      ((b.getD i none = none ∨ vg.getD i none = none ∨ vw.getD i none = none ∨
          hs.getD i none = none ∨ eN.getD i none = none) →
        cellAt out "dissolvedN2O" i = none)) ∧
    (∃ out2, def_calc_sdg_sat npexp g = some out2 ∧
      ((wt2.getD j none = none ∨ b2.getD j none = none) →
        cellAt out2 "satConcCO2" j = none ∧ cellAt out2 "satConcCH4" j = none ∧
        cellAt out2 "satConcN2O" j = none ∧ cellAt out2 "CO2PercSat" j = none ∧
        cellAt out2 "CH4PercSat" j = none ∧ cellAt out2 "N2OPercSat" j = none) ∧
      (dC.getD j none = none → cellAt out2 "CO2PercSat" j = none) ∧
      (dM.getD j none = none → cellAt out2 "CH4PercSat" j = none) ∧
      (dN.getD j none = none → cellAt out2 "N2OPercSat" j = none)) := by
  constructor
  · obtain ⟨out, hout, hA1, hA2, hA3, hD1, hD2, hD3, hrest⟩ :=
      def_calc_sdg_conc_spec npexp f b vg vw hs eC sC eM sM eN sN
        hb hvg hvw hhs heC hsC heM hsM heN hsN
    refine ⟨out, hout, ?_, ?_, ?_⟩
    · intro h
      rw [cellAt, hD1, Option.getD_some, dissolvedCol_getD _ _ _ _ _ _ _ _ _ i hiB]
      exact dissolvedCell_none _ _ _ _ _ _ _ _ _ h
    · intro h
      rw [cellAt, hD2, Option.getD_some, dissolvedCol_getD _ _ _ _ _ _ _ _ _ i hiB]
      exact dissolvedCell_none _ _ _ _ _ _ _ _ _ h
    · intro h
      rw [cellAt, hD3, Option.getD_some, dissolvedCol_getD _ _ _ _ _ _ _ _ _ i hiB]
      exact dissolvedCell_none _ _ _ _ _ _ _ _ _ h
  · obtain ⟨out2, hout2, hA1, hA2, hA3, hS1, hS2, hS3, hP1, hP2, hP3, hE1, hE2, hE3, hrest⟩ :=
      def_calc_sdg_sat_spec npexp g b2 wt2 uC uM uN dC dM dN
        hb2 hwt2 huC huM huN hdC hdM hdN
    have hor : ∀ srcs : Col, (wt2.getD j none = none ∨ b2.getD j none = none) →
        wt2.getD j none = none ∨ srcs.getD j none = none ∨ b2.getD j none = none := by
      intro srcs h
      rcases h with h | h
      · exact Or.inl h
      · exact Or.inr (Or.inr h)
    refine ⟨out2, hout2, ?_, ?_, ?_, ?_⟩
    · intro h
      refine ⟨?_, ?_, ?_, ?_, ?_, ?_⟩
      · rw [cellAt, hS1, Option.getD_some, satConcCol_getD _ _ _ _ _ _ j hjW]
        exact satConcCell_none _ _ _ _ _ _ (hor _ h)
      · rw [cellAt, hS2, Option.getD_some, satConcCol_getD _ _ _ _ _ _ j hjW]
        exact satConcCell_none _ _ _ _ _ _ (hor _ h)
      · rw [cellAt, hS3, Option.getD_some, satConcCol_getD _ _ _ _ _ _ j hjW]
        exact satConcCell_none _ _ _ _ _ _ (hor _ h)
      · rw [cellAt, hP1, Option.getD_some, percSatCol_getD _ _ j hjDC,
          satConcCol_getD _ _ _ _ _ _ j hjW, satConcCell_none _ _ _ _ _ _ (hor _ h)]
        exact percSatCell_sat_none _
      · rw [cellAt, hP2, Option.getD_some, percSatCol_getD _ _ j hjDM,
          satConcCol_getD _ _ _ _ _ _ j hjW, satConcCell_none _ _ _ _ _ _ (hor _ h)]
        exact percSatCell_sat_none _
      · rw [cellAt, hP3, Option.getD_some, percSatCol_getD _ _ j hjDN,
          satConcCol_getD _ _ _ _ _ _ j hjW, satConcCell_none _ _ _ _ _ _ (hor _ h)]
        exact percSatCell_sat_none _
    · intro h
      rw [cellAt, hP1, Option.getD_some, percSatCol_getD _ _ j hjDC, h]
      exact percSatCell_conc_none _
    · intro h
      rw [cellAt, hP2, Option.getD_some, percSatCol_getD _ _ j hjDM, h]
      exact percSatCell_conc_none _
    · intro h
      rw [cellAt, hP3, Option.getD_some, percSatCol_getD _ _ j hjDN, h]
      exact percSatCell_conc_none _

/-- Witness for C6 at `wFrame`, row 1 (missing `headspaceTemp` and
`waterTemp`) for both calculators. -/
theorem claim_C6_null_propagation_witness :
    (getCol wFrame "barometricPressure" = some wBaro ∧
      getCol wFrame "gasVolume" = some wVolGas ∧
      getCol wFrame "waterVolume" = some wVolH2O ∧
      getCol wFrame "headspaceTemp" = some wHeadspaceTemp ∧
      getCol wFrame "concentrationCO2Gas" = some wEqCO2 ∧
      getCol wFrame "concentrationCO2Air" = some wSrcCO2 ∧
      getCol wFrame "concentrationCH4Gas" = some wEqCH4 ∧
      getCol wFrame "concentrationCH4Air" = some wSrcCH4 ∧
      getCol wFrame "concentrationN2OGas" = some wEqN2O ∧
      getCol wFrame "concentrationN2OAir" = some wSrcN2O ∧
      getCol wFrame "waterTemp" = some wWaterTemp ∧
      getCol wFrame "dissolvedCO2" = some wDisCO2 ∧
      getCol wFrame "dissolvedCH4" = some wDisCH4 ∧
      getCol wFrame "dissolvedN2O" = some wDisN2O ∧
      1 < wBaro.length ∧ 1 < wWaterTemp.length ∧ 1 < wDisCO2.length ∧
      1 < wDisCH4.length ∧ 1 < wDisN2O.length) ∧
    ((∃ out, def_calc_sdg_conc (fun q => q) wFrame = some out ∧
      ((wBaro.getD 1 none = none ∨ wVolGas.getD 1 none = none ∨
          wVolH2O.getD 1 none = none ∨ wHeadspaceTemp.getD 1 none = none ∨
          wEqCO2.getD 1 none = none) → cellAt out "dissolvedCO2" 1 = none) ∧
      ((wBaro.getD 1 none = none ∨ wVolGas.getD 1 none = none ∨
          wVolH2O.getD 1 none = none ∨ wHeadspaceTemp.getD 1 none = none ∨
          wEqCH4.getD 1 none = none) → cellAt out "dissolvedCH4" 1 = none) ∧
      ((wBaro.getD 1 none = none ∨ wVolGas.getD 1 none = none ∨
          wVolH2O.getD 1 none = none ∨ wHeadspaceTemp.getD 1 none = none ∨
          wEqN2O.getD 1 none = none) → cellAt out "dissolvedN2O" 1 = none)) ∧
    (∃ out2, def_calc_sdg_sat (fun q => q) wFrame = some out2 ∧
      ((wWaterTemp.getD 1 none = none ∨ wBaro.getD 1 none = none) →
        cellAt out2 "satConcCO2" 1 = none ∧ cellAt out2 "satConcCH4" 1 = none ∧
        cellAt out2 "satConcN2O" 1 = none ∧ cellAt out2 "CO2PercSat" 1 = none ∧
        cellAt out2 "CH4PercSat" 1 = none ∧ cellAt out2 "N2OPercSat" 1 = none) ∧
      (wDisCO2.getD 1 none = none → cellAt out2 "CO2PercSat" 1 = none) ∧
      (wDisCH4.getD 1 none = none → cellAt out2 "CH4PercSat" 1 = none) ∧
      (wDisN2O.getD 1 none = none → cellAt out2 "N2OPercSat" 1 = none))) :=
  ⟨⟨rfl, rfl, rfl, rfl, rfl, rfl, rfl, rfl, rfl, rfl, rfl, rfl, rfl, rfl,
    by norm_num [wBaro], by norm_num [wWaterTemp], by norm_num [wDisCO2],
    by norm_num [wDisCH4], by norm_num [wDisN2O]⟩,
  claim_C6_null_propagation (fun q => q) wFrame wFrame
    wBaro wVolGas wVolH2O wHeadspaceTemp wEqCO2 wSrcCO2 wEqCH4 wSrcCH4 wEqN2O wSrcN2O
    rfl rfl rfl rfl rfl rfl rfl rfl rfl rfl
    wBaro wWaterTemp wSrcCO2 wSrcCH4 wSrcN2O wDisCO2 wDisCH4 wDisN2O
    rfl rfl rfl rfl rfl rfl rfl rfl
    1 1 (by norm_num [wBaro]) (by norm_num [wWaterTemp]) (by norm_num [wDisCO2])
    (by norm_num [wDisCH4]) (by norm_num [wDisN2O])⟩

/-- Claim C7: for every row of `def_calc_sdg_sat`'s output whose
`satConc<Gas>` cell is zero, that row's `<Gas>PercSat` is the non-finite /
null cell (`none` in the model) rather than an exception: the call completes
and returns a frame, and every percent-saturation cell — in particular every
other row — is the row-local value `dissolved / satConc * 100`, so no other
row is affected. -/
theorem claim_C7_zero_saturation (npexp : ℚ → ℚ) (g : Frame)
    (b2 wt2 uC uM uN dC dM dN : Col)
    (hb2 : getCol g "barometricPressure" = some b2)
    (hwt2 : getCol g "waterTemp" = some wt2)
    (huC : getCol g "concentrationCO2Air" = some uC)
    (huM : getCol g "concentrationCH4Air" = some uM)
    (huN : getCol g "concentrationN2OAir" = some uN)
    (hdC : getCol g "dissolvedCO2" = some dC)
    (hdM : getCol g "dissolvedCH4" = some dM)
    (hdN : getCol g "dissolvedN2O" = some dN)
    (j : ℕ) (hjDC : j < dC.length) (hjDM : j < dM.length) (hjDN : j < dN.length) :
    ∃ out, def_calc_sdg_sat npexp g = some out ∧
      (cellAt out "satConcCO2" j = some 0 → cellAt out "CO2PercSat" j = none) ∧
      (cellAt out "satConcCH4" j = some 0 → cellAt out "CH4PercSat" j = none) ∧
      (cellAt out "satConcN2O" j = some 0 → cellAt out "N2OPercSat" j = none) ∧
      (∀ k, k < dC.length → cellAt out "CO2PercSat" k =
        percSatCell (dC.getD k none) (cellAt out "satConcCO2" k)) ∧
      (∀ k, k < dM.length → cellAt out "CH4PercSat" k =
        percSatCell (dM.getD k none) (cellAt out "satConcCH4" k)) ∧
      (∀ k, k < dN.length → cellAt out "N2OPercSat" k =
        percSatCell (dN.getD k none) (cellAt out "satConcN2O" k)) := by
  obtain ⟨out, hout, hA1, hA2, hA3, hS1, hS2, hS3, hP1, hP2, hP3, hE1, hE2, hE3, hrest⟩ :=
    def_calc_sdg_sat_spec npexp g b2 wt2 uC uM uN dC dM dN
      hb2 hwt2 huC huM huN hdC hdM hdN
  refine ⟨out, hout, ?_, ?_, ?_, ?_, ?_, ?_⟩
  · intro h
    rw [cellAt, hS1, Option.getD_some] at h
    rw [cellAt, hP1, Option.getD_some, percSatCol_getD _ _ j hjDC, h]
    exact percSatCell_sat_zero _
  · intro h
    rw [cellAt, hS2, Option.getD_some] at h
    rw [cellAt, hP2, Option.getD_some, percSatCol_getD _ _ j hjDM, h]
    exact percSatCell_sat_zero _
  · intro h
    rw [cellAt, hS3, Option.getD_some] at h
    rw [cellAt, hP3, Option.getD_some, percSatCol_getD _ _ j hjDN, h]
    exact percSatCell_sat_zero _
  · intro k hk
    rw [cellAt, hP1, Option.getD_some, percSatCol_getD _ _ k hk, cellAt, hS1,
      Option.getD_some]
  · intro k hk
    rw [cellAt, hP2, Option.getD_some, percSatCol_getD _ _ k hk, cellAt, hS2,
      Option.getD_some]
  · intro k hk
    rw [cellAt, hP3, Option.getD_some, percSatCol_getD _ _ k hk, cellAt, hS3,
      Option.getD_some]

/-- Witness for C7 at `wFrame`, row 3, whose reference-air concentrations are
all zero so that `satConc<Gas>` is zero there. -/
theorem claim_C7_zero_saturation_witness :
    (getCol wFrame "barometricPressure" = some wBaro ∧
      getCol wFrame "waterTemp" = some wWaterTemp ∧
      getCol wFrame "concentrationCO2Air" = some wSrcCO2 ∧
      getCol wFrame "concentrationCH4Air" = some wSrcCH4 ∧
      getCol wFrame "concentrationN2OAir" = some wSrcN2O ∧
      getCol wFrame "dissolvedCO2" = some wDisCO2 ∧
      getCol wFrame "dissolvedCH4" = some wDisCH4 ∧
      getCol wFrame "dissolvedN2O" = some wDisN2O ∧
      3 < wDisCO2.length ∧ 3 < wDisCH4.length ∧ 3 < wDisN2O.length) ∧
    (∃ out, def_calc_sdg_sat (fun q => q) wFrame = some out ∧
      (cellAt out "satConcCO2" 3 = some 0 → cellAt out "CO2PercSat" 3 = none) ∧
      (cellAt out "satConcCH4" 3 = some 0 → cellAt out "CH4PercSat" 3 = none) ∧
      (cellAt out "satConcN2O" 3 = some 0 → cellAt out "N2OPercSat" 3 = none) ∧
      (∀ k, k < wDisCO2.length → cellAt out "CO2PercSat" k =
        percSatCell (wDisCO2.getD k none) (cellAt out "satConcCO2" k)) ∧
      (∀ k, k < wDisCH4.length → cellAt out "CH4PercSat" k =
        percSatCell (wDisCH4.getD k none) (cellAt out "satConcCH4" k)) ∧
      (∀ k, k < wDisN2O.length → cellAt out "N2OPercSat" k =
        percSatCell (wDisN2O.getD k none) (cellAt out "satConcN2O" k))) :=
  ⟨⟨rfl, rfl, rfl, rfl, rfl, rfl, rfl, rfl,
    by norm_num [wDisCO2], by norm_num [wDisCH4], by norm_num [wDisN2O]⟩,
  claim_C7_zero_saturation (fun q => q) wFrame
    wBaro wWaterTemp wSrcCO2 wSrcCH4 wSrcN2O wDisCO2 wDisCH4 wDisN2O
    rfl rfl rfl rfl rfl rfl rfl rfl
    3 (by norm_num [wDisCO2]) (by norm_num [wDisCH4]) (by norm_num [wDisN2O])⟩


/-- Claim C8: on a frame with the canonical column names, each calculator
leaves the values of every pre-existing column unchanged except the three
reference-air columns, which are defaulted as documented; the derived columns
are appended with one cell per row (no deletion of rows), and no other
physical-input column is overwritten (in particular `gasVolume` and
`waterVolume`, re-assigned by `astype(float)`, keep their values). -/
theorem claim_C8_frame_effect (npexp : ℚ → ℚ) (f g : Frame)
    (b vg vw hs eC sC eM sM eN sN : Col)
    (hb : getCol f "barometricPressure" = some b)
    (hvg : getCol f "gasVolume" = some vg)
    (hvw : getCol f "waterVolume" = some vw)
    (hhs : getCol f "headspaceTemp" = some hs)
    (heC : getCol f "concentrationCO2Gas" = some eC)
    (hsC : getCol f "concentrationCO2Air" = some sC)
    (heM : getCol f "concentrationCH4Gas" = some eM)
    (hsM : getCol f "concentrationCH4Air" = some sM)
    (heN : getCol f "concentrationN2OGas" = some eN)
    (hsN : getCol f "concentrationN2OAir" = some sN)
    (b2 wt2 uC uM uN dC dM dN : Col)
    (hb2 : getCol g "barometricPressure" = some b2)
    (hwt2 : getCol g "waterTemp" = some wt2)
    (huC : getCol g "concentrationCO2Air" = some uC)
    (huM : getCol g "concentrationCH4Air" = some uM)
    (huN : getCol g "concentrationN2OAir" = some uN)
    (hdC : getCol g "dissolvedCO2" = some dC)
    (hdM : getCol g "dissolvedCH4" = some dM)
    (hdN : getCol g "dissolvedN2O" = some dN) :
    (∃ out, def_calc_sdg_conc npexp f = some out ∧
      (∀ n, n ≠ "concentrationCO2Air" → n ≠ "concentrationCH4Air" →
        n ≠ "concentrationN2OAir" → n ≠ "dissolvedCO2" → n ≠ "dissolvedCH4" →
        n ≠ "dissolvedN2O" → getCol out n = getCol f n) ∧
      getCol out "concentrationCO2Air" = some (defaultCol 405 sC) ∧
      getCol out "concentrationCH4Air" = some (defaultCol 1.85 sM) ∧
      getCol out "concentrationN2OAir" = some (defaultCol 0.330 sN) ∧
      (∃ c1, getCol out "dissolvedCO2" = some c1 ∧ c1.length = b.length) ∧
      (∃ c2, getCol out "dissolvedCH4" = some c2 ∧ c2.length = b.length) ∧
      (∃ c3, getCol out "dissolvedN2O" = some c3 ∧ c3.length = b.length)) ∧
    (∃ out2, def_calc_sdg_sat npexp g = some out2 ∧
      (∀ n, n ≠ "concentrationCO2Air" → n ≠ "concentrationCH4Air" →
        n ≠ "concentrationN2OAir" → n ≠ "satConcCO2" → n ≠ "satConcCH4" →
        n ≠ "satConcN2O" → n ≠ "CO2PercSat" → n ≠ "CH4PercSat" →
        n ≠ "N2OPercSat" → getCol out2 n = getCol g n) ∧
      getCol out2 "concentrationCO2Air" = some (defaultCol 405 uC) ∧
      getCol out2 "concentrationCH4Air" = some (defaultCol 1.85 uM) ∧
      getCol out2 "concentrationN2OAir" = some (defaultCol 0.330 uN) ∧
      (∃ s1, getCol out2 "satConcCO2" = some s1 ∧ s1.length = wt2.length) ∧
      (∃ s2, getCol out2 "satConcCH4" = some s2 ∧ s2.length = wt2.length) ∧
      (∃ s3, getCol out2 "satConcN2O" = some s3 ∧ s3.length = wt2.length) ∧
      (∃ p1, getCol out2 "CO2PercSat" = some p1 ∧ p1.length = dC.length) ∧
      (∃ p2, getCol out2 "CH4PercSat" = some p2 ∧ p2.length = dM.length) ∧
      (∃ p3, getCol out2 "N2OPercSat" = some p3 ∧ p3.length = dN.length)) := by
  constructor
  · obtain ⟨out, hout, hA1, hA2, hA3, hD1, hD2, hD3, hGV, hWV, hrest⟩ :=
      def_calc_sdg_conc_spec npexp f b vg vw hs eC sC eM sM eN sN
        hb hvg hvw hhs heC hsC heM hsM heN hsN
    exact ⟨out, hout, hrest, hA1, hA2, hA3,
      ⟨_, hD1, dissolvedCol_length _ _ _ _ _ _ _ _ _⟩,
      ⟨_, hD2, dissolvedCol_length _ _ _ _ _ _ _ _ _⟩,
      ⟨_, hD3, dissolvedCol_length _ _ _ _ _ _ _ _ _⟩⟩
  · obtain ⟨out2, hout2, hA1, hA2, hA3, hS1, hS2, hS3, hP1, hP2, hP3, hE1, hE2, hE3, hrest⟩ :=
      def_calc_sdg_sat_spec npexp g b2 wt2 uC uM uN dC dM dN
        hb2 hwt2 huC huM huN hdC hdM hdN
    exact ⟨out2, hout2, hrest, hA1, hA2, hA3,
      ⟨_, hS1, satConcCol_length _ _ _ _ _ _⟩,
      ⟨_, hS2, satConcCol_length _ _ _ _ _ _⟩,
      ⟨_, hS3, satConcCol_length _ _ _ _ _ _⟩,
      ⟨_, hP1, percSatCol_length _ _⟩,
      ⟨_, hP2, percSatCol_length _ _⟩,
      ⟨_, hP3, percSatCol_length _ _⟩⟩

/-- Witness for C8 at `wFrame` (both calculators). -/
theorem claim_C8_frame_effect_witness :
    (getCol wFrame "barometricPressure" = some wBaro ∧
      getCol wFrame "gasVolume" = some wVolGas ∧
      getCol wFrame "waterVolume" = some wVolH2O ∧
      getCol wFrame "headspaceTemp" = some wHeadspaceTemp ∧
      getCol wFrame "concentrationCO2Gas" = some wEqCO2 ∧
      getCol wFrame "concentrationCO2Air" = some wSrcCO2 ∧
      getCol wFrame "concentrationCH4Gas" = some wEqCH4 ∧
      getCol wFrame "concentrationCH4Air" = some wSrcCH4 ∧
      getCol wFrame "concentrationN2OGas" = some wEqN2O ∧
      getCol wFrame "concentrationN2OAir" = some wSrcN2O ∧
      getCol wFrame "waterTemp" = some wWaterTemp ∧
      getCol wFrame "dissolvedCO2" = some wDisCO2 ∧
      getCol wFrame "dissolvedCH4" = some wDisCH4 ∧
      getCol wFrame "dissolvedN2O" = some wDisN2O) ∧
    ((∃ out, def_calc_sdg_conc (fun q => q) wFrame = some out ∧
      (∀ n, n ≠ "concentrationCO2Air" → n ≠ "concentrationCH4Air" →
        n ≠ "concentrationN2OAir" → n ≠ "dissolvedCO2" → n ≠ "dissolvedCH4" →
        n ≠ "dissolvedN2O" → getCol out n = getCol wFrame n) ∧
      getCol out "concentrationCO2Air" = some (defaultCol 405 wSrcCO2) ∧
      getCol out "concentrationCH4Air" = some (defaultCol 1.85 wSrcCH4) ∧
      getCol out "concentrationN2OAir" = some (defaultCol 0.330 wSrcN2O) ∧
      (∃ c1, getCol out "dissolvedCO2" = some c1 ∧ c1.length = wBaro.length) ∧
      (∃ c2, getCol out "dissolvedCH4" = some c2 ∧ c2.length = wBaro.length) ∧
      (∃ c3, getCol out "dissolvedN2O" = some c3 ∧ c3.length = wBaro.length)) ∧
    (∃ out2, def_calc_sdg_sat (fun q => q) wFrame = some out2 ∧
      (∀ n, n ≠ "concentrationCO2Air" → n ≠ "concentrationCH4Air" →
        n ≠ "concentrationN2OAir" → n ≠ "satConcCO2" → n ≠ "satConcCH4" →
        n ≠ "satConcN2O" → n ≠ "CO2PercSat" → n ≠ "CH4PercSat" →
        n ≠ "N2OPercSat" → getCol out2 n = getCol wFrame n) ∧
      getCol out2 "concentrationCO2Air" = some (defaultCol 405 wSrcCO2) ∧
      getCol out2 "concentrationCH4Air" = some (defaultCol 1.85 wSrcCH4) ∧
      getCol out2 "concentrationN2OAir" = some (defaultCol 0.330 wSrcN2O) ∧
      (∃ s1, getCol out2 "satConcCO2" = some s1 ∧ s1.length = wWaterTemp.length) ∧
      (∃ s2, getCol out2 "satConcCH4" = some s2 ∧ s2.length = wWaterTemp.length) ∧
      (∃ s3, getCol out2 "satConcN2O" = some s3 ∧ s3.length = wWaterTemp.length) ∧
      (∃ p1, getCol out2 "CO2PercSat" = some p1 ∧ p1.length = wDisCO2.length) ∧
      (∃ p2, getCol out2 "CH4PercSat" = some p2 ∧ p2.length = wDisCH4.length) ∧
      (∃ p3, getCol out2 "N2OPercSat" = some p3 ∧ p3.length = wDisN2O.length))) :=
  ⟨⟨rfl, rfl, rfl, rfl, rfl, rfl, rfl, rfl, rfl, rfl, rfl, rfl, rfl, rfl⟩,
  claim_C8_frame_effect (fun q => q) wFrame wFrame
    wBaro wVolGas wVolH2O wHeadspaceTemp wEqCO2 wSrcCO2 wEqCH4 wSrcCH4 wEqN2O wSrcN2O
    rfl rfl rfl rfl rfl rfl rfl rfl rfl rfl
    wBaro wWaterTemp wSrcCO2 wSrcCH4 wSrcN2O wDisCO2 wDisCH4 wDisN2O
    rfl rfl rfl rfl rfl rfl rfl rfl⟩

/-- Claim C10: for every row whose `waterTemp` and `barometricPressure` are
non-null (and the temperature is not -273.15 °C), `def_calc_sdg_sat` produces
a non-null `satConc<Gas>` for all three gases even when the row has no lab
data at all — `dissolved<Gas>` and `concentration<Gas>Air` all null — because
the reference-air value is defaulted first; on such a row `<Gas>PercSat` is
null while `satConc<Gas>` is not. -/
theorem claim_C10_saturation_without_lab_data (npexp : ℚ → ℚ) (g : Frame)
    (b2 wt2 uC uM uN dC dM dN : Col)
    (hb2 : getCol g "barometricPressure" = some b2)
    (hwt2 : getCol g "waterTemp" = some wt2)
    (huC : getCol g "concentrationCO2Air" = some uC)
    (huM : getCol g "concentrationCH4Air" = some uM)
    (huN : getCol g "concentrationN2OAir" = some uN)
    (hdC : getCol g "dissolvedCO2" = some dC)
    (hdM : getCol g "dissolvedCH4" = some dM)
    (hdN : getCol g "dissolvedN2O" = some dN)
    (j : ℕ) (hjW : j < wt2.length) (hjSC : j < uC.length) (hjSM : j < uM.length)
    (hjSN : j < uN.length) (hjDC : j < dC.length) (hjDM : j < dM.length)
    (hjDN : j < dN.length)
    (wv pv : ℚ) (hwv : wt2.getD j none = some wv) (hpv : b2.getD j none = some pv)
    (hT : wv + cKelvin ≠ 0)
    (huCn : uC.getD j none = none) (huMn : uM.getD j none = none)
    (huNn : uN.getD j none = none)
    (hdCn : dC.getD j none = none) (hdMn : dM.getD j none = none)
    (hdNn : dN.getD j none = none) :
    ∃ out, def_calc_sdg_sat npexp g = some out ∧
      cellAt out "satConcCO2" j = some (satConcSpec npexp ckHCO2 cdHdTCO2 wv 405 pv) ∧
      cellAt out "satConcCH4" j = some (satConcSpec npexp ckHCH4 cdHdTCH4 wv 1.85 pv) ∧
      cellAt out "satConcN2O" j = some (satConcSpec npexp ckHN2O cdHdTN2O wv 0.330 pv) ∧
      cellAt out "CO2PercSat" j = none ∧ cellAt out "CH4PercSat" j = none ∧
      cellAt out "N2OPercSat" j = none := by
  obtain ⟨out, hout, hA1, hA2, hA3, hS1, hS2, hS3, hP1, hP2, hP3, hE1, hE2, hE3, hrest⟩ :=
    def_calc_sdg_sat_spec npexp g b2 wt2 uC uM uN dC dM dN
      hb2 hwt2 huC huM huN hdC hdM hdN
  refine ⟨out, hout, ?_, ?_, ?_, ?_, ?_, ?_⟩
  · rw [cellAt, hS1, Option.getD_some, satConcCol_getD _ _ _ _ _ _ j hjW, hwv, hpv,
      defaultCol_getD _ _ _ hjSC, huCn, Option.getD_none,
      satConcCell_eval _ _ _ _ _ _ hT]
    simp only [satConcSpec, cKelvin, cPresConv, cT0]
  · rw [cellAt, hS2, Option.getD_some, satConcCol_getD _ _ _ _ _ _ j hjW, hwv, hpv,
      defaultCol_getD _ _ _ hjSM, huMn, Option.getD_none,
      satConcCell_eval _ _ _ _ _ _ hT]
    simp only [satConcSpec, cKelvin, cPresConv, cT0]
  · rw [cellAt, hS3, Option.getD_some, satConcCol_getD _ _ _ _ _ _ j hjW, hwv, hpv,
      defaultCol_getD _ _ _ hjSN, huNn, Option.getD_none,
      satConcCell_eval _ _ _ _ _ _ hT]
    simp only [satConcSpec, cKelvin, cPresConv, cT0]
  · rw [cellAt, hP1, Option.getD_some, percSatCol_getD _ _ j hjDC, hdCn]
    exact percSatCell_conc_none _
  · rw [cellAt, hP2, Option.getD_some, percSatCol_getD _ _ j hjDM, hdMn]
    exact percSatCell_conc_none _
  · rw [cellAt, hP3, Option.getD_some, percSatCol_getD _ _ j hjDN, hdNn]
    exact percSatCell_conc_none _

/-- Witness for C10 at `wFrame`, row 2: water temperature and pressure are
present, all lab-derived cells are missing. -/
theorem claim_C10_saturation_without_lab_data_witness :
    (getCol wFrame "barometricPressure" = some wBaro ∧
      getCol wFrame "waterTemp" = some wWaterTemp ∧
      getCol wFrame "concentrationCO2Air" = some wSrcCO2 ∧
      getCol wFrame "concentrationCH4Air" = some wSrcCH4 ∧
      getCol wFrame "concentrationN2OAir" = some wSrcN2O ∧
      getCol wFrame "dissolvedCO2" = some wDisCO2 ∧
      getCol wFrame "dissolvedCH4" = some wDisCH4 ∧
      getCol wFrame "dissolvedN2O" = some wDisN2O ∧
      2 < wWaterTemp.length ∧ 2 < wSrcCO2.length ∧ 2 < wSrcCH4.length ∧
      2 < wSrcN2O.length ∧ 2 < wDisCO2.length ∧ 2 < wDisCH4.length ∧
      2 < wDisN2O.length ∧
      wWaterTemp.getD 2 none = some 15 ∧ wBaro.getD 2 none = some 98 ∧
      (15 : ℚ) + cKelvin ≠ 0 ∧
      wSrcCO2.getD 2 none = none ∧ wSrcCH4.getD 2 none = none ∧
      wSrcN2O.getD 2 none = none ∧ wDisCO2.getD 2 none = none ∧
      wDisCH4.getD 2 none = none ∧ wDisN2O.getD 2 none = none) ∧
    (∃ out, def_calc_sdg_sat (fun q => q) wFrame = some out ∧
      cellAt out "satConcCO2" 2 =
        some (satConcSpec (fun q => q) ckHCO2 cdHdTCO2 15 405 98) ∧
      cellAt out "satConcCH4" 2 =
        some (satConcSpec (fun q => q) ckHCH4 cdHdTCH4 15 1.85 98) ∧
      cellAt out "satConcN2O" 2 =
        some (satConcSpec (fun q => q) ckHN2O cdHdTN2O 15 0.330 98) ∧
      cellAt out "CO2PercSat" 2 = none ∧ cellAt out "CH4PercSat" 2 = none ∧
      cellAt out "N2OPercSat" 2 = none) :=
  ⟨⟨rfl, rfl, rfl, rfl, rfl, rfl, rfl, rfl,
    by norm_num [wWaterTemp], by norm_num [wSrcCO2], by norm_num [wSrcCH4],
    by norm_num [wSrcN2O], by norm_num [wDisCO2], by norm_num [wDisCH4],
    by norm_num [wDisN2O], rfl, rfl, by norm_num [cKelvin],
    rfl, rfl, rfl, rfl, rfl, rfl⟩,
  claim_C10_saturation_without_lab_data (fun q => q) wFrame
    wBaro wWaterTemp wSrcCO2 wSrcCH4 wSrcN2O wDisCO2 wDisCH4 wDisN2O
    rfl rfl rfl rfl rfl rfl rfl rfl
    2 (by norm_num [wWaterTemp]) (by norm_num [wSrcCO2]) (by norm_num [wSrcCH4])
    (by norm_num [wSrcN2O]) (by norm_num [wDisCO2]) (by norm_num [wDisCH4])
    (by norm_num [wDisN2O])
    15 98 rfl rfl (by norm_num [cKelvin]) rfl rfl rfl rfl rfl rfl⟩


/-- Claim C5: `def_format_sdg` emits exactly one output row per
`fieldDataProc` row, also when `referenceAirSampleID` /
`equilibratedAirSampleID` have zero or ambiguous matches in
`externalLabData` or `waterSampleID` has no match in `fieldSuperParent`
(`labItem` / `parentItem` yield `none` exactly on a raised-and-swallowed
`.item()` exception, so the embedding's totality models that no error
escapes); a failed lookup leaves the affected concentration field(s) null
for that row, independently per gas species (each implication below only
mentions its own gas's lookups). -/
theorem claim_C5_formatter_lookup_tolerance (field : List FieldRow)
    (lab : List LabRow) (parents : List ParentRow) :
    (def_format_sdg field lab parents).length = field.length ∧
    ∀ (i : ℕ) (fr : FieldRow) (orow : OutRow), field[i]? = some fr →
      (def_format_sdg field lab parents)[i]? = some orow →
      ((labItem lab fr.referenceAirSampleID LabRow.concentrationCO2 = none →
          orow.concentrationCO2Air = none ∧ orow.concentrationCO2Gas = none) ∧
       (labItem lab fr.equilibratedAirSampleID LabRow.concentrationCO2 = none →
          orow.concentrationCO2Gas = none) ∧
       (labItem lab fr.referenceAirSampleID LabRow.concentrationCH4 = none →
          orow.concentrationCH4Air = none ∧ orow.concentrationCH4Gas = none) ∧
       (labItem lab fr.equilibratedAirSampleID LabRow.concentrationCH4 = none →
          orow.concentrationCH4Gas = none) ∧
       (labItem lab fr.referenceAirSampleID LabRow.concentrationN2O = none →
          orow.concentrationN2OAir = none ∧ orow.concentrationN2OGas = none) ∧
       (labItem lab fr.equilibratedAirSampleID LabRow.concentrationN2O = none →
          orow.concentrationN2OGas = none) ∧
       (parentItem parents fr.waterSampleID = none → orow.waterTemp = none)) := by
  refine ⟨def_format_sdg_length field lab parents, ?_⟩
  intro i fr orow hfr hout
  rw [def_format_sdg_getElem field lab parents i fr hfr] at hout
  obtain rfl := (Option.some.inj hout).symm
  have hCO2p := labStepCO2_preserves lab
    (initOut (flaggedRow fr))
  have hCH4p := labStepCH4_preserves lab
    (labStepCO2 lab (initOut (flaggedRow fr)))
  refine ⟨?_, ?_, ?_, ?_, ?_, ?_, ?_⟩
  · intro h
    constructor
    · rw [parentStep, labStep,
        (parentStepB_preserves parents _).2.2.1,
        (parentStepA_preserves parents _).2.2.1,
        (labStepN2O_preserves lab _).2.2.2.2.2.1,
        (labStepCH4_preserves lab _).2.2.2.2.2.1,
        labStepCO2_eq_of_ref_fail lab _ h]
      rfl
    · rw [parentStep, labStep,
        (parentStepB_preserves parents _).2.2.2.1,
        (parentStepA_preserves parents _).2.2.2.1,
        (labStepN2O_preserves lab _).2.2.2.2.2.2.1,
        (labStepCH4_preserves lab _).2.2.2.2.2.2.1,
        labStepCO2_eq_of_ref_fail lab _ h]
      rfl
  · intro h
    rw [parentStep, labStep,
      (parentStepB_preserves parents _).2.2.2.1,
      (parentStepA_preserves parents _).2.2.2.1,
      (labStepN2O_preserves lab _).2.2.2.2.2.2.1,
      (labStepCH4_preserves lab _).2.2.2.2.2.2.1,
      labStepCO2_gas_of_eq_fail lab _ h]
    rfl
  · intro h
    have h1 : labItem lab (labStepCO2 lab (initOut (flaggedRow fr))).referenceAirSampleID LabRow.concentrationCH4 = none := by
      rw [hCO2p.2.1]; exact h
    constructor
    · rw [parentStep, labStep,
        (parentStepB_preserves parents _).2.2.2.2.1,
        (parentStepA_preserves parents _).2.2.2.2.1,
        (labStepN2O_preserves lab _).2.2.2.2.2.2.2.1,
        labStepCH4_eq_of_ref_fail lab _ h1, hCO2p.2.2.2.2.2.1]
      rfl
    · rw [parentStep, labStep,
        (parentStepB_preserves parents _).2.2.2.2.2.1,
        (parentStepA_preserves parents _).2.2.2.2.2.1,
        (labStepN2O_preserves lab _).2.2.2.2.2.2.2.2,
        labStepCH4_eq_of_ref_fail lab _ h1, hCO2p.2.2.2.2.2.2.1]
      rfl
  · intro h
    have h1 : labItem lab (labStepCO2 lab (initOut (flaggedRow fr))).equilibratedAirSampleID LabRow.concentrationCH4 = none := by
      rw [hCO2p.2.2.1]; exact h
    rw [parentStep, labStep,
      (parentStepB_preserves parents _).2.2.2.2.2.1,
      (parentStepA_preserves parents _).2.2.2.2.2.1,
      (labStepN2O_preserves lab _).2.2.2.2.2.2.2.2,
      labStepCH4_gas_of_eq_fail lab _ h1, hCO2p.2.2.2.2.2.2.1]
    rfl
  · intro h
    have h1 : labItem lab (labStepCH4 lab (labStepCO2 lab (initOut (flaggedRow fr)))).referenceAirSampleID
        LabRow.concentrationN2O = none := by
      rw [hCH4p.2.1, hCO2p.2.1]; exact h
    constructor
    · rw [parentStep, labStep,
        (parentStepB_preserves parents _).2.2.2.2.2.2.1,
        (parentStepA_preserves parents _).2.2.2.2.2.2.1,
        labStepN2O_eq_of_ref_fail lab _ h1, hCH4p.2.2.2.2.2.2.2.1,
        hCO2p.2.2.2.2.2.2.2.1]
      rfl
    · rw [parentStep, labStep,
        (parentStepB_preserves parents _).2.2.2.2.2.2.2,
        (parentStepA_preserves parents _).2.2.2.2.2.2.2,
        labStepN2O_eq_of_ref_fail lab _ h1, hCH4p.2.2.2.2.2.2.2.2,
        hCO2p.2.2.2.2.2.2.2.2]
      rfl
  · intro h
    have h1 : labItem lab (labStepCH4 lab (labStepCO2 lab (initOut (flaggedRow fr)))).equilibratedAirSampleID
        LabRow.concentrationN2O = none := by
      rw [hCH4p.2.2.1, hCO2p.2.2.1]; exact h
    rw [parentStep, labStep,
      (parentStepB_preserves parents _).2.2.2.2.2.2.2,
      (parentStepA_preserves parents _).2.2.2.2.2.2.2,
      labStepN2O_gas_of_eq_fail lab _ h1, hCH4p.2.2.2.2.2.2.2.2,
      hCO2p.2.2.2.2.2.2.2.2]
    rfl
  · intro h
    have hkey : (labStep lab (initOut (flaggedRow fr))).waterSampleID = fr.waterSampleID := by
      rw [labStep, (labStepN2O_preserves lab _).1, (labStepCH4_preserves lab _).1,
        (labStepCO2_preserves lab _).1]
      rfl
    have hp : parentItem parents (labStep lab (initOut (flaggedRow fr))).waterSampleID = none := by
      rw [hkey]; exact h
    rw [parentStep, (parentStepB_preserves parents _).2.1,
      parentStepA_waterTemp_of_fail parents _ hp, labStep,
      (labStepN2O_preserves lab _).2.2.2.1, (labStepCH4_preserves lab _).2.2.2.1,
      (labStepCO2_preserves lab _).2.2.2.1]
    rfl

/-- Witness for C5: one field row against an empty lab table and empty
super-parent table; every lookup fails and all six concentration fields and
`waterTemp` are null, while the row itself survives. -/
theorem claim_C5_formatter_lookup_tolerance_witness :
    (def_format_sdg [wFieldRow] [] []).length = [wFieldRow].length ∧
    (parentStep [] (labStep [] (initOut (flaggedRow wFieldRow)))).concentrationCO2Air = none ∧
    (parentStep [] (labStep [] (initOut (flaggedRow wFieldRow)))).concentrationCO2Gas = none ∧
    (parentStep [] (labStep [] (initOut (flaggedRow wFieldRow)))).concentrationCH4Air = none ∧
    (parentStep [] (labStep [] (initOut (flaggedRow wFieldRow)))).concentrationCH4Gas = none ∧
    (parentStep [] (labStep [] (initOut (flaggedRow wFieldRow)))).concentrationN2OAir = none ∧
    (parentStep [] (labStep [] (initOut (flaggedRow wFieldRow)))).concentrationN2OGas = none ∧
    (parentStep [] (labStep [] (initOut (flaggedRow wFieldRow)))).waterTemp = none := by
  obtain ⟨hlen, hrow⟩ := claim_C5_formatter_lookup_tolerance [wFieldRow] [] []
  have h2 := hrow 0 wFieldRow
    (parentStep [] (labStep [] (initOut (flaggedRow wFieldRow)))) rfl rfl
  exact ⟨hlen, (h2.1 rfl).1, (h2.1 rfl).2, (h2.2.2.1 rfl).1, (h2.2.2.1 rfl).2,
    (h2.2.2.2.2.1 rfl).1, (h2.2.2.2.2.1 rfl).2, h2.2.2.2.2.2.2 rfl⟩

/-- Claim C4 is contradicted by the code: the conditions at
`def_format_sdg.py` lines 63-77 test `series.isna() is True`, which is always
`False` (identity comparison of a Series with the Boolean singleton), so for
a row with both syringe volumes missing the formatter emits
`volH2OSource = 0` and a null `waterVolume` (and likewise for gas) instead of
the claimed flag 1 and defaults 40 / 20.  This theorem evaluates the
formatter at such a row, and at a row with reported volumes (where the
claim's `otherwise` half does hold). -/
theorem claim_C4_code_eval :
    ((def_format_sdg [wFieldRowMissing] [] [])[0]?.map
      (fun r => (r.volH2OSource, r.waterVolume, r.volGasSource, r.gasVolume)) =
      some (some 0, none, some 0, none)) ∧
    ((def_format_sdg [wFieldRow] [] [])[0]?.map
      (fun r => (r.volH2OSource, r.waterVolume, r.volGasSource, r.gasVolume)) =
      some (some 0, some 40, some 0, some 20)) :=
  ⟨rfl, rfl⟩

/-- Claim C9 is contradicted by the code: with all eleven physical-input
columns under non-canonical names and every override argument supplied,
`def_calc_sdg_conc` raises `AttributeError` at the hard-coded
`inputFile.gasVolume` read of line 127 (modelled as `none`) instead of
succeeding, because no column is literally named `gasVolume`. -/
theorem claim_C9_code_eval :
    def_calc_sdg_conc (fun q => q) wRenamedFrame "gv" "wv" "bp" "wtemp" "hst"
      "eqC" "srcC" "eqM" "srcM" "eqN" "srcN" = none := by
  rfl

end NeonDissolvedGas
